import Mathlib

/-!
Verification of the time-normalization and partitioned-append storage engine
of the Data-Dashboard repository (`src/be/data_pipeline.py`,
`src/be/sensor_api_server.py`, `src/fe/csv_reader.py`).

The Python code is shallowly embedded: pure helpers become Lean functions over
`ℚ`/`ℕ`/`ℤ`, the filesystem becomes explicit state passing, and every fallible
operation is modelled with `Option`/`Except` or an explicit error oracle.
Machine floats are modelled by `ℚ` (all float operations performed by the code
on the values in question are exact well within the 1e-6 tolerances stated by
the spec).
-/

namespace DataDashboard

/-- Python's `int(x)` applied to a real-valued expression: truncation toward
zero. Used to embed the `int(...)` casts inside `datetime_to_mjd`. -/
def pyInt (q : ℚ) : ℤ :=
  if 0 ≤ q then ⌊q⌋ else ⌈q⌉

theorem pyInt_of_nonneg {q : ℚ} (h : 0 ≤ q) : pyInt q = ⌊q⌋ := by
  simp [pyInt, h]

/-- Embedding of a Python `datetime.datetime` value: the seven numeric fields.
Python restricts `year` to `1..9999`, `month` to `1..12` and so on; validity
is tracked by the `ValidDT` predicate where a theorem needs it. -/
structure PyDatetime where
  year : ℕ
  month : ℕ
  day : ℕ
  hour : ℕ
  minute : ℕ
  second : ℕ
  microsecond : ℕ
  deriving Repr, DecidableEq

/-- Embeds `datetime_to_mjd` from `src/be/data_pipeline.py` lines 37-54 (the
copy in `src/be/sensor_api_server.py` lines 34-47 is textually identical):
`jd = 367*year - int(7*(year + int((month+9)/12))/4) + int(275*month/9)
 + day + 1721013.5`, then `jd += (hour + minute/60 + second/3600)/24`,
then `mjd = jd - 2400000.5`. Python `/` is true division and `int(...)`
truncates, hence `pyInt` on exact rationals. -/
def datetime_to_mjd (dt : PyDatetime) : ℚ :=
  let jd : ℚ :=
    367 * (dt.year : ℚ)
      - (pyInt (7 * ((dt.year : ℚ) + (pyInt (((dt.month : ℚ) + 9) / 12) : ℚ)) / 4) : ℚ)
      + (pyInt (275 * (dt.month : ℚ) / 9) : ℚ)
      + (dt.day : ℚ)
      + 1721013.5
  let jd' := jd + ((dt.hour : ℚ) + (dt.minute : ℚ) / 60 + (dt.second : ℚ) / 3600) / 24
  jd' - 2400000.5

/-- Reference Julian-date formula exactly as written in the spec (§4.1 steps
4-5), with genuine floor semantics for every `floor(...)` term:
`JD = 367·Y − floor(7·(Y + floor((M+9)/12))/4) + floor(275·M/9) + D
 + 1721013.5 + (h + m/60 + s/3600)/24`, `MJD = JD − 2400000.5`. -/
def specRefMJD (Y M D h m s : ℕ) : ℚ :=
  367 * (Y : ℚ)
    - (⌊7 * ((Y : ℚ) + (⌊((M : ℚ) + 9) / 12⌋ : ℚ)) / 4⌋ : ℚ)
    + (⌊275 * (M : ℚ) / 9⌋ : ℚ)
    + (D : ℚ)
    + 1721013.5
    + ((h : ℚ) + (m : ℚ) / 60 + (s : ℚ) / 3600) / 24
    - 2400000.5

theorem datetime_to_mjd_eq_specRefMJD (dt : PyDatetime) :
    datetime_to_mjd dt
      = specRefMJD dt.year dt.month dt.day dt.hour dt.minute dt.second := by
  have h1 : (0 : ℚ) ≤ ((dt.month : ℚ) + 9) / 12 := by positivity
  have h2 : (0 : ℚ) ≤ 275 * (dt.month : ℚ) / 9 := by positivity
  have h3 : (0 : ℚ) ≤ (pyInt (((dt.month : ℚ) + 9) / 12) : ℚ) := by
    rw [pyInt_of_nonneg h1]
    exact_mod_cast Int.floor_nonneg.mpr h1
  have h4 : (0 : ℚ) ≤ 7 * ((dt.year : ℚ) + (⌊((dt.month : ℚ) + 9) / 12⌋ : ℚ)) / 4 := by
    have hy : (0 : ℚ) ≤ (dt.year : ℚ) := by positivity
    have hf : (0 : ℚ) ≤ (⌊((dt.month : ℚ) + 9) / 12⌋ : ℚ) := by
      exact_mod_cast Int.floor_nonneg.mpr h1
    nlinarith
  simp only [datetime_to_mjd, specRefMJD, pyInt_of_nonneg h1, pyInt_of_nonneg h2,
    pyInt_of_nonneg h4]

/-! ### Calendar arithmetic underlying `datetime`

`datetime.fromtimestamp`, `pytz` localization and aware-datetime arithmetic
all reduce to CPython's proleptic-Gregorian ordinal conversions
(`datetime._ymd2ord` / `datetime._ord2ymd`).  They are embedded here so that
the timestamp-resolution claims (C2, C3) can speak about the absolute instant
a civil time denotes. -/

/-- Embeds CPython's `_is_leap(year)`:
`year % 4 == 0 and (year % 100 != 0 or year % 400 == 0)`. -/
def isLeap (y : ℕ) : Prop :=
  y % 4 = 0 ∧ (y % 100 ≠ 0 ∨ y % 400 = 0)

instance (y : ℕ) : Decidable (isLeap y) := by
  unfold isLeap; infer_instance

/-- Embeds CPython's `_DAYS_IN_MONTH` table (index 1..12). -/
def _DAYS_IN_MONTH (m : ℕ) : ℕ :=
  match m with
  | 1 => 31 | 2 => 28 | 3 => 31 | 4 => 30 | 5 => 31 | 6 => 30
  | 7 => 31 | 8 => 31 | 9 => 30 | 10 => 31 | 11 => 30 | 12 => 31
  | _ => 0

/-- Embeds CPython's `_DAYS_BEFORE_MONTH` table (index 1..12). -/
def _DAYS_BEFORE_MONTH (m : ℕ) : ℕ :=
  match m with
  | 1 => 0 | 2 => 31 | 3 => 59 | 4 => 90 | 5 => 120 | 6 => 151
  | 7 => 181 | 8 => 212 | 9 => 243 | 10 => 273 | 11 => 304 | 12 => 334
  | _ => 0

/-- Embeds CPython's `_days_in_month(year, month)`. -/
def _days_in_month (y m : ℕ) : ℕ :=
  if m = 2 ∧ isLeap y then 29 else _DAYS_IN_MONTH m

/-- Embeds CPython's `_days_before_month(year, month)`:
`_DAYS_BEFORE_MONTH[month] + (month > 2 and _is_leap(year))`. -/
def _days_before_month (y m : ℕ) : ℕ :=
  _DAYS_BEFORE_MONTH m + (if 2 < m ∧ isLeap y then 1 else 0)

/-- Embeds CPython's `_days_before_year(year)`:
`year*365 + year//4 - year//100 + year//400` for `year := year - 1`. -/
def _days_before_year (y : ℕ) : ℕ :=
  (y - 1) * 365 + (y - 1) / 4 - (y - 1) / 100 + (y - 1) / 400

/-- Embeds CPython's `_ymd2ord(year, month, day)`: the proleptic Gregorian
ordinal of a date, with day 1 = 0001-01-01. -/
def _ymd2ord (y m d : ℕ) : ℕ :=
  _days_before_year y + _days_before_month y m + d

/-- Body of CPython's `_ord2ymd(n)` after its four `divmod` steps, as a
function of the block counts `n400 = a`, `n100 = b`, `n4 = c`, `n1 = e` and
the remaining day count `f`: the `n1 == 4 or n100 == 4` December-31 special
case, the leap flag, the month estimate `(n + 50) >> 5` and its single
correction step. -/
def _ord2ymd_parts (a b c e f : ℕ) : ℕ × ℕ × ℕ :=
  let year := a * 400 + 1 + b * 100 + c * 4 + e
  if e = 4 ∨ b = 4 then
    (year - 1, 12, 31)
  else
    let leap := e = 3 ∧ (c ≠ 24 ∨ b = 3)
    let month := (f + 50) / 32
    let preceding := _DAYS_BEFORE_MONTH month + (if 2 < month ∧ leap then 1 else 0)
    if f < preceding then
      let month' := month - 1
      let preceding' :=
        preceding - (_DAYS_IN_MONTH month' + (if month' = 2 ∧ leap then 1 else 0))
      (year, month', f - preceding' + 1)
    else
      (year, month, f - preceding + 1)

/-- Embeds CPython's `_ord2ymd(n)`: ordinal to `(year, month, day)`; the four
`divmod` steps (by 146097, 36524, 1461 and 365 days) feed `_ord2ymd_parts`. -/
def _ord2ymd (n : ℕ) : ℕ × ℕ × ℕ :=
  let n0 := n - 1
  _ord2ymd_parts (n0 / 146097) (n0 % 146097 / 36524)
    (n0 % 146097 % 36524 / 1461) (n0 % 146097 % 36524 % 1461 / 365)
    (n0 % 146097 % 36524 % 1461 % 365)

theorem isLeap_iff (a b c e : ℕ) (hb : b ≤ 3) (hc : c ≤ 24) (he : e ≤ 3) :
    isLeap (a * 400 + 1 + b * 100 + c * 4 + e) ↔ (e = 3 ∧ (c ≠ 24 ∨ b = 3)) := by
  have m4 : (a * 400 + 1 + b * 100 + c * 4 + e) % 4 = (e + 1) % 4 := by
    have h : a * 400 + 1 + b * 100 + c * 4 + e
        = 4 * (a * 100 + b * 25 + c) + (e + 1) := by ring
    rw [h, Nat.mul_add_mod]
  have m100 : (a * 400 + 1 + b * 100 + c * 4 + e) % 100 = (c * 4 + (e + 1)) % 100 := by
    have h : a * 400 + 1 + b * 100 + c * 4 + e
        = 100 * (a * 4 + b) + (c * 4 + (e + 1)) := by ring
    rw [h, Nat.mul_add_mod]
  have m400 : (a * 400 + 1 + b * 100 + c * 4 + e) % 400
      = (b * 100 + (c * 4 + (e + 1))) % 400 := by
    have h : a * 400 + 1 + b * 100 + c * 4 + e
        = 400 * a + (b * 100 + (c * 4 + (e + 1))) := by ring
    rw [h, Nat.mul_add_mod]
  unfold isLeap
  rw [m4, m100, m400]
  omega

set_option maxHeartbeats 3200000 in
theorem ymd2ord_parts (a b c e f : ℕ)
    (h1 : f < 365) (h2 : 365 * e + f < 1461)
    (h3 : 1461 * c + 365 * e + f < 36524)
    (h4 : 36524 * b + 1461 * c + 365 * e + f < 146097) :
    _ymd2ord (_ord2ymd_parts a b c e f).1 (_ord2ymd_parts a b c e f).2.1
        (_ord2ymd_parts a b c e f).2.2
      = 146097 * a + 36524 * b + 1461 * c + 365 * e + f + 1 := by
  simp only [_ord2ymd_parts]
  by_cases hsp : e = 4 ∨ b = 4
  · rw [if_pos hsp]
    simp only [_ymd2ord, _days_before_year, _days_before_month, _DAYS_BEFORE_MONTH]
    rcases hsp with he | hb
    · subst he
      have hf0 : f = 0 := by omega
      subst hf0
      have hcb : c ≤ 23 := by omega
      have hbb : b ≤ 3 := by omega
      have e1 : a * 400 + 1 + b * 100 + c * 4 + 4 - 1 - 1
          = a * 400 + b * 100 + c * 4 + 3 := by omega
      have e2 : a * 400 + 1 + b * 100 + c * 4 + 4 - 1
          = a * 400 + 1 + b * 100 + c * 4 + 3 := by omega
      rw [e1, e2]
      simp only [isLeap_iff a b c 3 hbb (by omega) (by omega), eq_self_iff_true,
        true_and, and_true, Nat.reduceLT]
      have d4 : (a * 400 + b * 100 + c * 4 + 3) / 4 = a * 100 + b * 25 + c := by
        omega
      have d100 : (a * 400 + b * 100 + c * 4 + 3) / 100 = a * 4 + b := by omega
      have d400 : (a * 400 + b * 100 + c * 4 + 3) / 400 = a := by omega
      rw [d4, d100, d400]
      split_ifs with hL <;> omega
    · have hc0 : c = 0 := by omega
      have he0 : e = 0 := by omega
      have hf0 : f = 0 := by omega
      subst hb; subst hc0; subst he0; subst hf0
      have e1 : a * 400 + 1 + 4 * 100 + 0 * 4 + 0 - 1 - 1 = a * 400 + 399 := by
        omega
      have e2 : a * 400 + 1 + 4 * 100 + 0 * 4 + 0 - 1
          = a * 400 + 1 + 3 * 100 + 24 * 4 + 3 := by omega
      rw [e1, e2]
      simp only [isLeap_iff a 3 24 3 (by omega) (by omega) (by omega),
        eq_self_iff_true, ne_eq, not_true, or_true, true_and, and_true,
        Nat.reduceLT, if_true]
      have d4 : (a * 400 + 399) / 4 = a * 100 + 99 := by omega
      have d100 : (a * 400 + 399) / 100 = a * 4 + 3 := by omega
      have d400 : (a * 400 + 399) / 400 = a := by omega
      rw [d4, d100, d400]
      omega
  · rw [if_neg hsp]
    have hbb : b ≤ 3 := by omega
    have hcb : c ≤ 24 := by omega
    have heb : e ≤ 3 := by omega
    have hyrw : a * 400 + 1 + b * 100 + c * 4 + e - 1
        = a * 400 + b * 100 + c * 4 + e := by omega
    have d4 : (a * 400 + b * 100 + c * 4 + e) / 4 = a * 100 + b * 25 + c := by
      omega
    have d100 : (a * 400 + b * 100 + c * 4 + e) / 100 = a * 4 + b := by omega
    have d400 : (a * 400 + b * 100 + c * 4 + e) / 400 = a := by omega
    obtain ⟨m0, hm0⟩ : ∃ m0, (f + 50) / 32 = m0 := ⟨_, rfl⟩
    rw [hm0]
    have hm1 : 1 ≤ m0 := by omega
    have hm2 : m0 ≤ 12 := by omega
    interval_cases m0 <;>
      simp only [_DAYS_BEFORE_MONTH, _DAYS_IN_MONTH, Nat.reduceSub, Nat.reduceLT,
        Nat.reduceEqDiff, true_and, and_true, false_and, and_false,
        if_true, if_false] <;>
      split_ifs <;>
      dsimp only <;>
      simp only [_ymd2ord, _days_before_year, _days_before_month,
        _DAYS_BEFORE_MONTH, Nat.reduceSub, Nat.reduceLT,
        isLeap_iff a b c e hbb hcb heb, true_and, and_true,
        false_and, and_false, if_true, if_false] <;>
      rw [hyrw, d4, d100, d400] <;>
      (try split_ifs) <;> omega

/-- The ordinal-to-civil conversion round-trips: CPython's `_ymd2ord` inverts
`_ord2ymd` on every positive ordinal. -/
theorem ymd2ord_ord2ymd (n : ℕ) (h : 1 ≤ n) :
    _ymd2ord (_ord2ymd n).1 (_ord2ymd n).2.1 (_ord2ymd n).2.2 = n := by
  have hrw : _ord2ymd n
      = _ord2ymd_parts ((n - 1) / 146097) ((n - 1) % 146097 / 36524)
          ((n - 1) % 146097 % 36524 / 1461)
          ((n - 1) % 146097 % 36524 % 1461 / 365)
          ((n - 1) % 146097 % 36524 % 1461 % 365) := rfl
  rw [hrw, ymd2ord_parts] <;> omega

/-- Civil datetime (whole seconds) denoted by `t` seconds since the Unix
epoch, computed the way CPython's `datetime.fromtimestamp` does: floor-divmod
of the timestamp into days and seconds-of-day (Lean's `Int` `/`/`%` round like
Python's for the positive divisor 86400), then `_ord2ymd` on the day ordinal;
719163 is `date(1970, 1, 1).toordinal()`. -/
def civilFromEpoch (t : ℤ) : PyDatetime :=
  let secs := (t % 86400).toNat
  let ymd := _ord2ymd (719163 + t / 86400).toNat
  ⟨ymd.1, ymd.2.1, ymd.2.2, secs / 3600, secs % 3600 / 60, secs % 60, 0⟩

/-- Seconds since the Unix epoch denoted by civil fields (read as UTC):
CPython timestamp arithmetic `(toordinal() - 719163) * 86400 + 3600*h + 60*m
 + s` for an aware datetime. Sub-second parts are dropped (all datetimes in
this development carry `microsecond = 0` where it matters). -/
def epochOfCivil (dt : PyDatetime) : ℤ :=
  ((_ymd2ord dt.year dt.month dt.day : ℤ) - 719163) * 86400
    + 3600 * (dt.hour : ℤ) + 60 * (dt.minute : ℤ) + (dt.second : ℤ)

/-- Epoch-to-civil conversion round-trips on every instant from year 1 on:
re-reading the civil fields produced by `civilFromEpoch` as an epoch gives
back the original timestamp. -/
theorem epochOfCivil_civilFromEpoch (t : ℤ) (h : 1 ≤ 719163 + t / 86400) :
    epochOfCivil (civilFromEpoch t) = t := by
  simp only [civilFromEpoch, epochOfCivil]
  have h0 : (0 : ℤ) ≤ t % 86400 := Int.emod_nonneg t (by norm_num)
  have h1 : t % 86400 < 86400 := Int.emod_lt_of_pos t (by norm_num)
  have hord : 1 ≤ (719163 + t / 86400).toNat := by omega
  rw [ymd2ord_ord2ymd (719163 + t / 86400).toNat hord]
  omega

/-! ### Strings: `strftime`, `strptime`, `int()` on form fields -/

/-- An ASCII whitespace character (the characters `\\s` matches in the inputs
this system sees; `_strptime` turns the format's literal space into `\\s+`). -/
def isWs (c : Char) : Bool :=
  c == ' ' || c == '\t' || c == '\n' || c == '\r'

/-- Decimal digit character for a digit value. -/
def digitChar (d : ℕ) : Char :=
  Char.ofNat (48 + d)

/-- Value of a decimal digit character. -/
def digitVal (c : Char) : ℕ :=
  c.toNat - 48

/-- Two-digit zero-padded decimal rendering (strftime `%m`/`%d`/`%H`/`%M`/`%S`). -/
def pad2 (n : ℕ) : List Char :=
  [digitChar (n / 10 % 10), digitChar (n % 10)]

/-- Four-digit zero-padded decimal rendering (strftime `%Y`). -/
def pad4 (n : ℕ) : List Char :=
  [digitChar (n / 1000 % 10), digitChar (n / 100 % 10),
    digitChar (n / 10 % 10), digitChar (n % 10)]

/-- Embeds `strftime('%Y-%m-%d %H:%M:%S')` on the datetime's civil fields. -/
def strftimeChars (dt : PyDatetime) : List Char :=
  pad4 dt.year ++ '-' :: pad2 dt.month ++ '-' :: pad2 dt.day
    ++ ' ' :: pad2 dt.hour ++ ':' :: pad2 dt.minute ++ ':' :: pad2 dt.second

/-- Embeds `strftime('%Y-%m-%d %H:%M:%S')` as a `String`. -/
def strftimeFmt (dt : PyDatetime) : String :=
  ⟨strftimeChars dt⟩

/-- Embeds `strftime('%Y-%m-%d %H:%M:%S IST')`, the `ist_str` rendering. -/
def istStr (dt : PyDatetime) : String :=
  ⟨strftimeChars dt ++ [' ', 'I', 'S', 'T']⟩

/-- Embeds `strftime('%Y-%m-%d %H:%M:%S UTC')`, the `utc_str` rendering. -/
def utcStr (dt : PyDatetime) : String :=
  ⟨strftimeChars dt ++ [' ', 'U', 'T', 'C']⟩

/-- Exactly four decimal digits (the `%Y` regex of `_strptime`). -/
def parse4 (cs : List Char) : Option (ℕ × List Char) :=
  match cs with
  | c1 :: c2 :: c3 :: c4 :: rest =>
    if c1.isDigit && c2.isDigit && c3.isDigit && c4.isDigit then
      some (((digitVal c1 * 10 + digitVal c2) * 10 + digitVal c3) * 10
        + digitVal c4, rest)
    else none
  | _ => none

/-- Two decimal digits, or one when no second digit follows — the net effect
of `_strptime`'s two-digit field regexes (range checks are applied later, as
the `datetime` constructor and the regex alternations jointly do). -/
def parse2or1 (cs : List Char) : Option (ℕ × List Char) :=
  match cs with
  | c1 :: c2 :: rest =>
    if c1.isDigit then
      if c2.isDigit then some (10 * digitVal c1 + digitVal c2, rest)
      else some (digitVal c1, c2 :: rest)
    else none
  | [c1] => if c1.isDigit then some (digitVal c1, []) else none
  | [] => none

/-- One exact literal character of the format. -/
def expectChar (c : Char) (cs : List Char) : Option (List Char) :=
  match cs with
  | c1 :: rest => if c1 = c then some rest else none
  | [] => none

/-- A nonempty whitespace run (the format's literal space, `\\s+`). -/
def skipWs1 (cs : List Char) : Option (List Char) :=
  match cs with
  | c1 :: rest => if isWs c1 then some (rest.dropWhile isWs) else none
  | [] => none

/-- Embeds `datetime.strptime(s, '%Y-%m-%d %H:%M:%S')`, with `none` where
Python raises `ValueError`: four digits for `%Y`, one or two digits for the
other fields, exact `-`/`:` literals, a nonempty whitespace run for the
format's space, no unconsumed trailing input, and the `datetime` constructor's
range checks (month 1..12, day 1..days-in-month, hour/minute/second bounds,
year at least 1). -/
def pyStrptime (s : String) : Option PyDatetime := do
  let (y, r1) ← parse4 s.data
  let r2 ← expectChar '-' r1
  let (mo, r3) ← parse2or1 r2
  let r4 ← expectChar '-' r3
  let (d, r5) ← parse2or1 r4
  let r6 ← skipWs1 r5
  let (h, r7) ← parse2or1 r6
  let r8 ← expectChar ':' r7
  let (mi, r9) ← parse2or1 r8
  let r10 ← expectChar ':' r9
  let (sec, r11) ← parse2or1 r10
  if r11 = [] ∧ 1 ≤ y ∧ 1 ≤ mo ∧ mo ≤ 12 ∧ 1 ≤ d ∧ d ≤ _days_in_month y mo
      ∧ h ≤ 23 ∧ mi ≤ 59 ∧ sec ≤ 59 then
    some ⟨y, mo, d, h, mi, sec, 0⟩
  else none

/-- Greedy decimal-digit run with accumulator (the digit loop inside
Python's `int(str)`). -/
def parseDigitsAux : List Char → ℕ → ℕ × List Char
  | c :: rest, acc =>
    if c.isDigit then parseDigitsAux rest (10 * acc + digitVal c)
    else (acc, c :: rest)
  | [], acc => (acc, [])

/-- Embeds Python `int(s)` on an ASCII form-field string: optional surrounding
whitespace, an optional sign, then one or more decimal digits; `none` where
`int()` raises `ValueError`. (PEP 515 underscore grouping and non-ASCII
digits are not modelled; the device sends plain decimal epochs.) -/
def pyIntParse (s : String) : Option ℤ :=
  let cs := s.data.dropWhile isWs
  let signed : ℤ × List Char :=
    match cs with
    | '-' :: rest => (-1, rest)
    | '+' :: rest => (1, rest)
    | _ => (1, cs)
  match signed.2 with
  | c :: _ =>
    if c.isDigit then
      let vr := parseDigitsAux signed.2 0
      if vr.2.dropWhile isWs = [] then some (signed.1 * vr.1) else none
    else none
  | [] => none

/-! ### Timezone handling and the two timestamp resolvers -/

/-- The fixed IST (+05:30) offset in seconds; `pytz.timezone('Asia/Kolkata')`
resolves to this offset throughout the modern date range the system
supports. -/
def IST_OFFSET : ℤ := 19800

/-- Embeds `aware_ist.astimezone(pytz.utc)`: CPython subtracts the UTC offset
from the instant via ordinal/timedelta arithmetic and re-derives civil
fields. -/
def istToUtc (dt : PyDatetime) : PyDatetime :=
  civilFromEpoch (epochOfCivil dt - IST_OFFSET)

/-- The canonical time triple built by both resolvers (the dictionary with
keys `ist_str`, `utc_str`, `mjd`; the string entries are `istStr td.ist` and
`utcStr td.utc`). -/
structure TimeData where
  ist : PyDatetime
  utc : PyDatetime
  mjd : ℚ
  deriving Repr, DecidableEq

/-- Embeds `process_timestamp(timestamp_str)` from `src/be/data_pipeline.py`
lines 56-85. `none` models a missing `TIMESTAMPS` value; Python's falsiness
test `if timestamp_str:` sends the empty string down the same branch as a
missing one; a string `strptime` rejects lands in the
`except (ValueError, TypeError)` branch. Every fallback uses
`datetime.now()`, passed here as `now`. `IST.localize` attaches the zone
without changing the civil fields, and `astimezone(UTC)` subtracts the 5:30
offset; `datetime_to_mjd` runs on the UTC value. The function is total: no
input raises. -/
def process_timestamp (timestamp_str : Option String) (now : PyDatetime) :
    TimeData :=
  let dt_naive :=
    match timestamp_str with
    | none => now
    | some s => if s = "" then now else (pyStrptime s).getD now
  let dt_ist := dt_naive
  let dt_utc := istToUtc dt_ist
  { ist := dt_ist, utc := dt_utc, mjd := datetime_to_mjd dt_utc }

/-- Epochs `datetime.fromtimestamp(e, tz=IST)` accepts: the UTC civil time
must lie in years 1..9999 (`-62135596800 = (1 - 719163) * 86400` is
0001-01-01T00:00:00 UTC) and the IST-shifted civil time must still fit below
the year-10000 boundary (`253402300799 = (3652059 - 719163) * 86400 + 86399`
is 9999-12-31T23:59:59; 3652059 = `_ymd2ord 9999 12 31`). -/
def fromtimestampOK (e : ℤ) : Prop :=
  -62135596800 ≤ e ∧ e + IST_OFFSET ≤ 253402300799

instance (e : ℤ) : Decidable (fromtimestampOK e) := by
  unfold fromtimestampOK; infer_instance

/-- The exception of the one uncaught push-path error. -/
inductive PyErr where
  | overflowError
  deriving Repr, DecidableEq

/-- Epochs on which `datetime.fromtimestamp(e, tz=IST)` raises
`OverflowError` — which the handler's `except (KeyError, ValueError,
OSError)` does NOT catch: the epoch does not fit the platform's 64-bit
`time_t` (`timestamp out of range for platform time_t`), or the UTC civil
time still fits year 9999 but adding the IST offset leaves `datetime.max`
(`date value out of range`, raised while applying `tz.fromutc`).  Every
other rejected epoch raises `ValueError` or `OSError`, both caught. -/
def fromtimestampOverflow (e : ℤ) : Prop :=
  9223372036854775808 ≤ e ∨ e < -9223372036854775808
    ∨ (253402300799 < e + IST_OFFSET ∧ e ≤ 253402300799)

instance (e : ℤ) : Decidable (fromtimestampOverflow e) := by
  unfold fromtimestampOverflow; infer_instance

/-- The dictionary `get_time_data` builds from a resolved IST value:
`astimezone(UTC)` shifts back by the offset and `datetime_to_mjd` runs on
the UTC value. -/
def timeDataOfIst (timestamp_ist : PyDatetime) : TimeData :=
  { ist := timestamp_ist, utc := istToUtc timestamp_ist,
    mjd := datetime_to_mjd (istToUtc timestamp_ist) }

/-- Embeds `get_time_data(form_data)` from `src/be/sensor_api_server.py`
lines 49-70. `form_timestamp` is the raw `timestamp` form field (`none` when
the key is absent — `KeyError`); a string `int()` rejects (`ValueError`) and
an epoch on which `fromtimestamp` raises `ValueError`/`OSError` take the
same `except` branch as the missing key, which uses `datetime.now(IST)` —
the server clock, passed here as the absolute instant `now_epoch`.  An
epoch on which `fromtimestamp` raises `OverflowError`
(`fromtimestampOverflow`) is NOT caught: the exception propagates out of
`get_time_data`, modelled as `.error`.  `fromtimestamp(e, tz=IST)` yields
the civil fields of `e` shifted by the IST offset. -/
def get_time_data (form_timestamp : Option String) (now_epoch : ℤ) :
    Except PyErr TimeData :=
  match form_timestamp.bind pyIntParse with
  | some e =>
    if fromtimestampOverflow e then .error .overflowError
    else if fromtimestampOK e then
      .ok (timeDataOfIst (civilFromEpoch (e + IST_OFFSET)))
    else .ok (timeDataOfIst (civilFromEpoch (now_epoch + IST_OFFSET)))
  | none => .ok (timeDataOfIst (civilFromEpoch (now_epoch + IST_OFFSET)))

/-! ### Partitioned CSV store: write path -/

/-- A CSV cell as handed to `csv.writer`/`csv.DictWriter`: header names and
timestamp strings stay strings, the MJD is a float (exact rational here), and
sensor values are floats parsed from the form's raw strings (kept symbolic as
the raw string, since no claim depends on their numeric value). -/
inductive Cell where
  | s (v : String)
  | q (v : ℚ)
  | num (raw : String)
  deriving Repr, DecidableEq

/-- Location of a partition file:
`CSV_BASE_DIR / category_dir / month_year / {category_dir}_{today}.csv`
(`category_dir` is e.g. `Photodiode_data`; `month_year` is strftime `%B_%Y`;
`today` is strftime `%Y-%m-%d`). -/
structure WKey where
  category_dir : String
  month_year : String
  today : String
  deriving Repr, DecidableEq

/-- The store: contents (list of CSV lines) per partition file, `none` when
the file does not exist. -/
def FS := WKey → Option (List (List Cell))

/-- Pointwise update of the store at one key. -/
def fsUpdate (fs : FS) (k : WKey) (v : List (List Cell)) : FS :=
  fun k2 => if k2 = k then some v else fs k2

/-- The store with no files. -/
def emptyFS : FS := fun _ => none

/-- English month name, strftime `%B`. -/
def monthName (m : ℕ) : String :=
  match m with
  | 1 => "January" | 2 => "February" | 3 => "March" | 4 => "April"
  | 5 => "May" | 6 => "June" | 7 => "July" | 8 => "August"
  | 9 => "September" | 10 => "October" | 11 => "November" | 12 => "December"
  | _ => ""

/-- strftime `%B_%Y` of a datetime (the month folder name). -/
def monthYearStr (dt : PyDatetime) : String :=
  monthName dt.month ++ "_" ++ ⟨pad4 dt.year⟩

/-- strftime `%Y-%m-%d` of a datetime (the date embedded in the file name). -/
def dateStr (dt : PyDatetime) : String :=
  ⟨pad4 dt.year ++ '-' :: pad2 dt.month ++ '-' :: pad2 dt.day⟩

/-- Embeds `write_to_csv(data_type, headers, data_row)` from
`src/be/sensor_api_server.py` lines 72-100 as a state transformer.  The
partition key is derived from `datetime.now(IST)` — wall-clock time at write
time — passed here as `now`.  `io_error` is an oracle for the `try` block
(directory creation, open, writes are all inside it): `true` means some call
raises, modelled at the `open` (nothing written), and the `except` branch
returns `False`.  Otherwise the header row is written first iff the file did
not exist (`os.path.exists`), then the data row is appended. -/
def write_to_csv (fs : FS) (io_error : Bool) (data_type : String)
    (headers row : List Cell) (now : PyDatetime) : FS × Bool :=
  if io_error then (fs, false)
  else
    let key : WKey := ⟨data_type ++ "_data", monthYearStr now, dateStr now⟩
    match fs key with
    | none => (fsUpdate fs key [headers, row], true)
    | some lines => (fsUpdate fs key (lines ++ [row]), true)

/-- The key `write_to_csv` writes to for a given `data_type` and wall-clock
`now`. -/
def serverKey (data_type : String) (now : PyDatetime) : WKey :=
  ⟨data_type ++ "_data", monthYearStr now, dateStr now⟩

/-- N successive `write_to_csv` appends of the given rows (no I/O errors),
all within the same wall-clock day. -/
def appendRows (fs : FS) (data_type : String) (headers : List Cell)
    (rows : List (List Cell)) (now : PyDatetime) : FS :=
  rows.foldl (fun acc r => (write_to_csv acc false data_type headers r now).1) fs

/-- Error oracle for the poll-path storage step. -/
structure IOOracle where
  mkdir_fails : Bool
  open_fails : Bool
  deriving Repr, DecidableEq

/-- The one exception class that can escape the poll path's storage step. -/
inductive IOErr where
  | mkdirErr
  deriving Repr, DecidableEq

/-- Header row of the temperature/humidity CSV
(`src/be/data_pipeline.py` line 102). -/
def temp_headers : List Cell :=
  [.s "timestamp", .s "UTC_timestamp", .s "MJD", .s "T1", .s "H1", .s "T2", .s "H2"]

/-- Embeds `get_csv_path()` from `src/be/data_pipeline.py` lines 87-98.  The
`os.makedirs(dir_path, exist_ok=True)` call sits OUTSIDE any try/except, so
its failure (permission, disk error) propagates to the caller — modelled as
`Except.error`. -/
def get_csv_path (o : IOOracle) (now : PyDatetime) : Except IOErr WKey :=
  if o.mkdir_fails then .error .mkdirErr
  else .ok ⟨"Temp_Humidity_data", monthYearStr now, dateStr now⟩

/-- Embeds `write_to_csv(filepath, data_row)` from `src/be/data_pipeline.py`
lines 100-115: only the `open`/write sits inside `try/except IOError`; on a
caught error it returns `False` (modelled at the open: nothing written),
otherwise it appends, writing the fixed header first iff the file did not
exist. -/
def write_to_csv_pipeline (fs : FS) (o : IOOracle) (key : WKey)
    (row : List Cell) : FS × Bool :=
  if o.open_fails then (fs, false)
  else
    match fs key with
    | none => (fsUpdate fs key [temp_headers, row], true)
    | some lines => (fsUpdate fs key (lines ++ [row]), true)

/-- One poll-loop storage step as `main()` performs it: `get_csv_path()`
followed by `write_to_csv`.  An exception from `get_csv_path` propagates
(`Except.error`, which would terminate the poll loop — `except
KeyboardInterrupt` does not catch it); a caught write failure is the boolean
inside `Except.ok`. -/
def poll_store_step (fs : FS) (o : IOOracle) (row : List Cell)
    (now : PyDatetime) : Except IOErr (FS × Bool) := do
  let key ← get_csv_path o now
  pure (write_to_csv_pipeline fs o key row)

theorem write_to_csv_ok (fs : FS) (data_type : String) (headers row : List Cell)
    (now : PyDatetime) :
    write_to_csv fs false data_type headers row now
      = match fs (serverKey data_type now) with
        | none => (fsUpdate fs (serverKey data_type now) [headers, row], true)
        | some lines =>
          (fsUpdate fs (serverKey data_type now) (lines ++ [row]), true) := rfl

theorem write_to_csv_pipeline_ok (fs : FS) (key : WKey) (row : List Cell) :
    write_to_csv_pipeline fs ⟨false, false⟩ key row
      = match fs key with
        | none => (fsUpdate fs key [temp_headers, row], true)
        | some lines => (fsUpdate fs key (lines ++ [row]), true) := rfl

theorem fsUpdate_self (fs : FS) (k : WKey) (v : List (List Cell)) :
    fsUpdate fs k v k = some v := by
  simp [fsUpdate]

theorem fsUpdate_other (fs : FS) (k k2 : WKey) (v : List (List Cell))
    (h : k2 ≠ k) : fsUpdate fs k v k2 = fs k2 := by
  simp [fsUpdate, h]

theorem appendRows_existing (data_type : String) (headers : List Cell)
    (now : PyDatetime) :
    ∀ (rows : List (List Cell)) (fs : FS) (cur : List (List Cell)),
      fs (serverKey data_type now) = some cur →
      appendRows fs data_type headers rows now (serverKey data_type now)
        = some (cur ++ rows) := by
  intro rows
  induction rows with
  | nil =>
    intro fs cur h
    simpa [appendRows] using h
  | cons r rs ih =>
    intro fs cur h
    have hstep : (write_to_csv fs false data_type headers r now).1
        = fsUpdate fs (serverKey data_type now) (cur ++ [r]) := by
      rw [write_to_csv_ok, h]
    have hout : appendRows fs data_type headers (r :: rs) now
        = appendRows (write_to_csv fs false data_type headers r now).1
            data_type headers rs now := rfl
    rw [hout, hstep]
    rw [ih (fsUpdate fs (serverKey data_type now) (cur ++ [r])) (cur ++ [r])
        (fsUpdate_self fs _ _)]
    simp

/-- C4: appending N ≥ 1 rows to a fresh partition produces a file whose
content is exactly one header line followed by those N data lines in order;
and an append against an already-existing file only appends the data row,
never the header again — for the server-side `write_to_csv` and the
poll-side `write_to_csv` alike. -/
theorem claim_C4_header_exactly_once :
    (∀ (fs : FS) (data_type : String) (headers r : List Cell)
        (rows : List (List Cell)) (now : PyDatetime),
      fs (serverKey data_type now) = none →
      appendRows fs data_type headers ([r] ++ rows) now (serverKey data_type now)
        = some (headers :: r :: rows)) ∧
    (∀ (fs : FS) (data_type : String) (headers row : List Cell)
        (lines : List (List Cell)) (now : PyDatetime),
      fs (serverKey data_type now) = some lines →
      (write_to_csv fs false data_type headers row now).1 (serverKey data_type now)
        = some (lines ++ [row])) ∧
    (∀ (fs : FS) (key : WKey) (row : List Cell),
      fs key = none →
      (write_to_csv_pipeline fs ⟨false, false⟩ key row).1 key
        = some [temp_headers, row]) ∧
    (∀ (fs : FS) (key : WKey) (row : List Cell) (lines : List (List Cell)),
      fs key = some lines →
      (write_to_csv_pipeline fs ⟨false, false⟩ key row).1 key
        = some (lines ++ [row])) := by
  refine ⟨?_, ?_, ?_, ?_⟩
  · intro fs data_type headers r rows now h
    have hstep : (write_to_csv fs false data_type headers r now).1
        = fsUpdate fs (serverKey data_type now) [headers, r] := by
      rw [write_to_csv_ok, h]
    have hout : appendRows fs data_type headers ([r] ++ rows) now
        = appendRows (write_to_csv fs false data_type headers r now).1
            data_type headers rows now := rfl
    rw [hout, hstep,
      appendRows_existing data_type headers now rows _ [headers, r]
        (fsUpdate_self fs _ _)]
    simp
  · intro fs data_type headers row lines now h
    rw [write_to_csv_ok, h]
    exact fsUpdate_self fs _ _
  · intro fs key row h
    rw [write_to_csv_pipeline_ok, h]
    exact fsUpdate_self fs _ _
  · intro fs key row lines h
    rw [write_to_csv_pipeline_ok, h]
    exact fsUpdate_self fs _ _

/-- Witness for C4: three appends to a fresh Photodiode partition yield one
header and three rows; a fourth against the existing file appends only the
row. -/
theorem claim_C4_header_exactly_once_witness :
    appendRows emptyFS "Photodiode" [Cell.s "timestamp"]
        ([[Cell.q 1]] ++ [[Cell.q 2], [Cell.q 3]]) ⟨2025, 4, 10, 12, 0, 0, 0⟩
        (serverKey "Photodiode" ⟨2025, 4, 10, 12, 0, 0, 0⟩)
      = some [[Cell.s "timestamp"], [Cell.q 1], [Cell.q 2], [Cell.q 3]]
      ∧ (write_to_csv (fun _ => some [[Cell.s "timestamp"], [Cell.q 1]]) false
          "Photodiode" [Cell.s "timestamp"] [Cell.q 9]
          ⟨2025, 4, 10, 12, 0, 0, 0⟩).1
          (serverKey "Photodiode" ⟨2025, 4, 10, 12, 0, 0, 0⟩)
        = some [[Cell.s "timestamp"], [Cell.q 1], [Cell.q 9]] :=
  ⟨claim_C4_header_exactly_once.1 emptyFS "Photodiode" [Cell.s "timestamp"]
      [Cell.q 1] [[Cell.q 2], [Cell.q 3]] ⟨2025, 4, 10, 12, 0, 0, 0⟩ rfl,
   claim_C4_header_exactly_once.2.1 (fun _ => some [[Cell.s "timestamp"], [Cell.q 1]])
      "Photodiode" [Cell.s "timestamp"] [Cell.q 9] [[Cell.s "timestamp"], [Cell.q 1]]
      ⟨2025, 4, 10, 12, 0, 0, 0⟩ rfl⟩

/-- C8 as stated is false on the poll path: a directory-creation failure
inside `get_csv_path` (whose `os.makedirs` is outside any try/except) raises
an exception that propagates out of the storage step instead of being
reported as a boolean. -/
theorem claim_C8_counterexample :
    poll_store_step emptyFS ⟨true, false⟩ [] ⟨2025, 4, 10, 12, 0, 0, 0⟩
      = .error .mkdirErr := rfl

/-- C8 amended: errors raised inside the try blocks are caught and reported
as booleans with the store unchanged — the server-side `write_to_csv`
catches everything including directory creation, and the poll-side
`write_to_csv` catches the open/write `IOError` — but the poll path's
directory creation runs in `get_csv_path` outside any try, and its failure
propagates as an exception out of the storage step. -/
theorem claim_C8_amended_io_errors :
    (∀ (fs : FS) (data_type : String) (headers row : List Cell)
        (now : PyDatetime),
      write_to_csv fs true data_type headers row now = (fs, false)) ∧
    (∀ (fs : FS) (o : IOOracle) (key : WKey) (row : List Cell),
      o.open_fails = true → write_to_csv_pipeline fs o key row = (fs, false)) ∧
    (∀ (fs : FS) (o : IOOracle) (row : List Cell) (now : PyDatetime),
      o.mkdir_fails = false →
      poll_store_step fs o row now
        = .ok (write_to_csv_pipeline fs o
            ⟨"Temp_Humidity_data", monthYearStr now, dateStr now⟩ row)) ∧
    (∀ (fs : FS) (o : IOOracle) (row : List Cell) (now : PyDatetime),
      o.mkdir_fails = true → poll_store_step fs o row now = .error .mkdirErr) := by
  refine ⟨fun fs data_type headers row now => rfl, ?_, ?_, ?_⟩
  · intro fs o key row h
    unfold write_to_csv_pipeline
    rw [h]
    rfl
  · intro fs o row now h
    unfold poll_store_step get_csv_path
    rw [h]
    rfl
  · intro fs o row now h
    unfold poll_store_step get_csv_path
    rw [h]
    rfl

/-- Witness for C8 (amended) at concrete stores and oracles. -/
theorem claim_C8_amended_io_errors_witness :
    write_to_csv_pipeline emptyFS ⟨false, true⟩
        ⟨"Temp_Humidity_data", "April_2025", "2025-04-10"⟩ [Cell.q 1]
      = (emptyFS, false)
      ∧ poll_store_step emptyFS ⟨false, false⟩ [Cell.q 1] ⟨2025, 4, 10, 12, 0, 0, 0⟩
          = .ok (write_to_csv_pipeline emptyFS ⟨false, false⟩
              ⟨"Temp_Humidity_data", monthYearStr ⟨2025, 4, 10, 12, 0, 0, 0⟩,
                dateStr ⟨2025, 4, 10, 12, 0, 0, 0⟩⟩ [Cell.q 1])
      ∧ poll_store_step emptyFS ⟨true, false⟩ [Cell.q 1] ⟨2025, 4, 10, 12, 0, 0, 0⟩
          = .error .mkdirErr :=
  ⟨claim_C8_amended_io_errors.2.1 emptyFS ⟨false, true⟩
      ⟨"Temp_Humidity_data", "April_2025", "2025-04-10"⟩ [Cell.q 1] rfl,
   claim_C8_amended_io_errors.2.2.1 emptyFS ⟨false, false⟩ [Cell.q 1]
      ⟨2025, 4, 10, 12, 0, 0, 0⟩ rfl,
   claim_C8_amended_io_errors.2.2.2 emptyFS ⟨true, false⟩ [Cell.q 1]
      ⟨2025, 4, 10, 12, 0, 0, 0⟩ rfl⟩

/-! ### Push-path ingestion handler -/

/-- Longest digits prefix and the rest. -/
def spanDigits : List Char → List Char × List Char
  | c :: rest =>
    if c.isDigit then
      let dr := spanDigits rest
      (c :: dr.1, dr.2)
    else ([], c :: rest)
  | [] => ([], [])

/-- Mantissa of a Python float literal: `digits`, `digits.`, `digits.digits`
or `.digits`; returns the unconsumed rest. -/
def floatMantissa (cs : List Char) : Option (List Char) :=
  let dr1 := spanDigits cs
  match dr1.2 with
  | '.' :: r2 =>
    let dr2 := spanDigits r2
    if dr1.1 = [] ∧ dr2.1 = [] then none else some dr2.2
  | r1 => if dr1.1 = [] then none else some r1

/-- Optional exponent: `e`/`E`, optional sign, one or more digits. -/
def floatExponent (cs : List Char) : Option (List Char) :=
  match cs with
  | c :: rest =>
    if c = 'e' ∨ c = 'E' then
      let rest2 :=
        match rest with
        | '+' :: r => r
        | '-' :: r => r
        | r => r
      let dr := spanDigits rest2
      if dr.1 = [] then none else some dr.2
    else some (c :: rest)
  | [] => some []

/-- Embeds Python `float(s)` acceptance on ASCII form values: optional
surrounding whitespace, optional sign, then a decimal literal with optional
fraction and exponent, or `inf`/`infinity`/`nan` case-insensitively. No
claim depends on the numeric value, only on acceptance. -/
def pyFloatAccepts (s : String) : Bool :=
  let cs := s.data.dropWhile isWs
  let cs1 :=
    match cs with
    | '+' :: r => r
    | '-' :: r => r
    | r => r
  let low := cs1.map Char.toLower
  if low.take 8 = "infinity".data ∧ (low.drop 8).dropWhile isWs = [] then true
  else if low.take 3 = "inf".data ∧ (low.drop 3).dropWhile isWs = [] then true
  else if low.take 3 = "nan".data ∧ (low.drop 3).dropWhile isWs = [] then true
  else
    match floatMantissa cs1 with
    | some r1 =>
      match floatExponent r1 with
      | some r2 => r2.dropWhile isWs = []
      | none => false
    | none => false

/-- `required_fields['photodiode']` of `save_sensor_data`. -/
def required_photodiode : List String := ["P1", "P2", "P3", "P4", "P5"]

/-- `required_fields['lasers']` of `save_sensor_data`. -/
def required_lasers : List String :=
  ["X1", "X2", "Y1", "Y2", "Z1", "Z2", "D1", "D2"]

/-- `all_fields = required_fields['photodiode'] + required_fields['lasers']`. -/
def all_fields : List String := required_photodiode ++ required_lasers

/-- The request's flat form data: field name to raw string value. -/
abbrev Form := List (String × String)

/-- HTTP-style response: body text and status code. -/
structure Resp where
  body : String
  status : ℕ
  deriving Repr, DecidableEq

/-- The 400 body produced when a value fails `float()`: the f-string
`f"Invalid numeric value in form data: {e}"` where `str(e)` is
`could not convert string to float: ` followed by the `repr` of the VALUE —
the field name never appears. -/
def invalidFloatMsg (v : String) : String :=
  "Invalid numeric value in form data: could not convert string to float: '"
    ++ v ++ "'"

/-- First field (scanning in `all_fields` order, as the dict comprehension
does) whose present value `float()` rejects, paired with that value; the
first failure raises and aborts the comprehension. -/
def firstInvalid : List String → Form → Option (String × String)
  | [], _ => none
  | f :: rest, form =>
    match form.lookup f with
    | some v => if pyFloatAccepts v then firstInvalid rest form else some (f, v)
    | none => firstInvalid rest form

/-- Header row `['timestamp', 'UTC_timestamp', 'MJD'] + fields` of a
category's partition. -/
def sensor_headers (fields : List String) : List Cell :=
  [.s "timestamp", .s "UTC_timestamp", .s "MJD"] ++ fields.map Cell.s

/-- Data row of a category: the resolved time triple followed by the float
values of the category's fields. -/
def sensor_row (td : TimeData) (form : Form) (fields : List String) : List Cell :=
  [.s (istStr td.ist), .s (utcStr td.utc), .q td.mjd]
    ++ fields.map (fun f => Cell.num ((form.lookup f).getD ""))

/-- Embeds the `/api/sensor-data` handler `save_sensor_data` from
`src/be/sensor_api_server.py` lines 104-149 (the legacy
`/phpfiles/save_val.php` endpoint routes to the same function).  `errP` and
`errL` are the I/O-error oracles of the photodiode and lasers `write_to_csv`
calls; `now_epoch` is the server clock.  Validation: empty body → 400;
missing fields (in `all_fields` order) → 400 naming exactly those fields;
first un-floatable value → 400 with `invalidFloatMsg`; then one time
resolution feeds two partition writes, and the response is 200 with the
resolved `ist_str` when both writes succeed, else a single fixed 500
message.  When `get_time_data` raises (`OverflowError` on the `timestamp`
epoch) nothing catches it: the handler aborts before any write, modelled as
`.error`. -/
def save_sensor_data (fs : FS) (errP errL : Bool) (form : Form)
    (now_epoch : ℤ) : Except PyErr (FS × Resp) :=
  if form = [] then .ok (fs, ⟨"Request body cannot be empty.", 400⟩)
  else
    let missing := all_fields.filter (fun f => (form.lookup f).isNone)
    if missing ≠ [] then
      .ok (fs, ⟨"Missing data fields: " ++ String.intercalate ", " missing, 400⟩)
    else
      match firstInvalid all_fields form with
      | some fv => .ok (fs, ⟨invalidFloatMsg fv.2, 400⟩)
      | none =>
        match get_time_data (form.lookup "timestamp") now_epoch with
        | .error err => .error err
        | .ok td =>
          let wall := civilFromEpoch (now_epoch + IST_OFFSET)
          let r1 := write_to_csv fs errP "Photodiode"
            (sensor_headers required_photodiode)
            (sensor_row td form required_photodiode) wall
          let r2 := write_to_csv r1.1 errL "Lasers"
            (sensor_headers required_lasers)
            (sensor_row td form required_lasers) wall
          if r1.2 && r2.2 then
            .ok (r2.1, ⟨"Data saved successfully at " ++ istStr td.ist, 200⟩)
          else
            .ok (r2.1, ⟨"Failed to write data to one or both CSV files.", 500⟩)

/-- A request carrying all thirteen fields with valid numbers. -/
def formOK : Form :=
  [("P1", "1.5"), ("P2", "2.5"), ("P3", "3.5"), ("P4", "4.5"), ("P5", "5.5"),
   ("X1", "0.1"), ("X2", "0.2"), ("Y1", "0.3"), ("Y2", "0.4"),
   ("Z1", "0.5"), ("Z2", "0.6"), ("D1", "0.7"), ("D2", "0.8")]

/-- `formOK` with `X2` replaced by a value `float()` rejects. -/
def formBadX2 : Form :=
  [("P1", "1.5"), ("P2", "2.5"), ("P3", "3.5"), ("P4", "4.5"), ("P5", "5.5"),
   ("X1", "0.1"), ("X2", "abc"), ("Y1", "0.3"), ("Y2", "0.4"),
   ("Z1", "0.5"), ("Z2", "0.6"), ("D1", "0.7"), ("D2", "0.8")]

/-- `formOK` with the `P3` binding removed. -/
def formMissingP3 : Form :=
  [("P1", "1.5"), ("P2", "2.5"), ("P4", "4.5"), ("P5", "5.5"),
   ("X1", "0.1"), ("X2", "0.2"), ("Y1", "0.3"), ("Y2", "0.4"),
   ("Z1", "0.5"), ("Z2", "0.6"), ("D1", "0.7"), ("D2", "0.8")]

/-- `formOK` plus a `timestamp` field whose epoch does not fit 64-bit
`time_t`, so `fromtimestamp` raises the uncaught `OverflowError`. -/
def formOverflow : Form := ("timestamp", "9223372036854775808") :: formOK

theorem write_to_csv_snd (fs : FS) (err : Bool) (d : String)
    (h r : List Cell) (now : PyDatetime) :
    (write_to_csv fs err d h r now).2 = !err := by
  cases err
  · rw [write_to_csv_ok]
    rcases fs (serverKey d now) <;> rfl
  · rfl

theorem save_sensor_data_run (fs : FS) (errP errL : Bool) (form : Form)
    (now_epoch : ℤ) (td : TimeData) (hne : form ≠ [])
    (hmiss : all_fields.filter (fun f => (form.lookup f).isNone) = [])
    (hinv : firstInvalid all_fields form = none)
    (htd : get_time_data (form.lookup "timestamp") now_epoch = .ok td) :
    save_sensor_data fs errP errL form now_epoch
      = (let wall := civilFromEpoch (now_epoch + IST_OFFSET)
         let r1 := write_to_csv fs errP "Photodiode"
           (sensor_headers required_photodiode)
           (sensor_row td form required_photodiode) wall
         let r2 := write_to_csv r1.1 errL "Lasers"
           (sensor_headers required_lasers)
           (sensor_row td form required_lasers) wall
         if r1.2 && r2.2 then
           .ok (r2.1, ⟨"Data saved successfully at " ++ istStr td.ist, 200⟩)
         else
           .ok (r2.1, ⟨"Failed to write data to one or both CSV files.", 500⟩)) := by
  simp only [save_sensor_data]
  rw [if_neg hne, if_neg (by simp [hmiss]), hinv, htd]

theorem save_sensor_data_raises (fs : FS) (errP errL : Bool) (form : Form)
    (now_epoch : ℤ) (err : PyErr) (hne : form ≠ [])
    (hmiss : all_fields.filter (fun f => (form.lookup f).isNone) = [])
    (hinv : firstInvalid all_fields form = none)
    (herr : get_time_data (form.lookup "timestamp") now_epoch = .error err) :
    save_sensor_data fs errP errL form now_epoch = .error err := by
  simp only [save_sensor_data]
  rw [if_neg hne, if_neg (by simp [hmiss]), hinv, herr]

set_option maxRecDepth 8000 in
/-- C6 as stated is false in its invalid-value half: with every field present
but `X2 = "abc"`, the handler rejects with a message naming only the bad
VALUE (`float()`'s error text) — the field name `X2` appears nowhere in the
response — though it does write nothing. -/
theorem claim_C6_counterexample :
    save_sensor_data emptyFS false false formBadX2 1700000000
        = .ok (emptyFS, ⟨invalidFloatMsg "abc", 400⟩)
      ∧ ¬ "X2".data <:+: (invalidFloatMsg "abc").data := by
  refine ⟨rfl, by decide⟩

/-- C6 amended: if any required field is absent the handler rejects with a
400 naming exactly the absent fields (in `all_fields` order) and writes
nothing; if all fields are present but some value fails `float()`, it
rejects with a 400 carrying `float()`'s error — which names the offending
VALUE, not the field — and writes nothing. -/
theorem claim_C6_validation_amended :
    ∀ (fs : FS) (errP errL : Bool) (form : Form) (now_epoch : ℤ),
      form ≠ [] →
      (all_fields.filter (fun f => (form.lookup f).isNone) ≠ [] →
        save_sensor_data fs errP errL form now_epoch
          = .ok (fs, ⟨"Missing data fields: "
              ++ String.intercalate ", "
                  (all_fields.filter (fun f => (form.lookup f).isNone)), 400⟩)) ∧
      (∀ f v, all_fields.filter (fun f => (form.lookup f).isNone) = [] →
        firstInvalid all_fields form = some (f, v) →
        save_sensor_data fs errP errL form now_epoch
          = .ok (fs, ⟨invalidFloatMsg v, 400⟩)) := by
  intro fs errP errL form now_epoch hne
  constructor
  · intro hmiss
    simp only [save_sensor_data]
    rw [if_neg hne, if_pos hmiss]
  · intro f v hmiss hinv
    simp only [save_sensor_data]
    rw [if_neg hne, if_neg (by simp [hmiss]), hinv]

set_option maxRecDepth 8000 in
/-- Witness for C6 (amended): the missing-`P3` form is rejected naming
exactly `P3`; the bad-`X2` form is rejected with the value-only message. -/
theorem claim_C6_validation_amended_witness :
    save_sensor_data emptyFS false false formMissingP3 1700000000
        = .ok (emptyFS, ⟨"Missing data fields: P3", 400⟩)
      ∧ save_sensor_data emptyFS false false formBadX2 1700000000
        = .ok (emptyFS, ⟨invalidFloatMsg "abc", 400⟩) :=
  ⟨(claim_C6_validation_amended emptyFS false false formMissingP3 1700000000
      (by decide)).1 (by decide),
   (claim_C6_validation_amended emptyFS false false formBadX2 1700000000
      (by decide)).2 "X2" "abc" (by decide) (by decide)⟩

set_option maxRecDepth 8000 in
/-- C7 as stated is false in its reporting half: when only the photodiode
write fails, when only the lasers write fails, and when both fail, the
handler returns the one identical 500 response — the caller is not told
which writes failed, and partial failure is indistinguishable from total
failure. -/
theorem claim_C7_counterexample :
    (save_sensor_data emptyFS true false formOK 1700000000).map Prod.snd
        = (save_sensor_data emptyFS true true formOK 1700000000).map Prod.snd
      ∧ (save_sensor_data emptyFS false true formOK 1700000000).map Prod.snd
        = (save_sensor_data emptyFS true true formOK 1700000000).map Prod.snd
      ∧ (save_sensor_data emptyFS true false formOK 1700000000).map Prod.snd
        = .ok ⟨"Failed to write data to one or both CSV files.", 500⟩ :=
  ⟨rfl, rfl, rfl⟩

theorem write_ok_at_key (fs : FS) (d : String) (h r : List Cell)
    (now : PyDatetime) :
    ∃ prev, (write_to_csv fs false d h r now).1 (serverKey d now)
      = some (prev ++ [r]) := by
  rw [write_to_csv_ok]
  rcases hfs : fs (serverKey d now) with _ | ls
  · exact ⟨[h], by simp [fsUpdate_self]⟩
  · exact ⟨ls, by simp [fsUpdate_self]⟩

theorem write_ok_other (fs : FS) (d : String) (h r : List Cell)
    (now : PyDatetime) (k : WKey) (hk : k ≠ serverKey d now) :
    (write_to_csv fs false d h r now).1 k = fs k := by
  rw [write_to_csv_ok]
  rcases fs (serverKey d now) <;> simp [fsUpdate_other _ _ _ _ hk]

/-- C7 amended: a valid push request on whose `timestamp` epoch
`fromtimestamp` raises `OverflowError` aborts before any write — the
uncaught exception propagates, with no 200, no 500 and no fan-out.  Every
other valid push request fans out into exactly two partition writes — one
Photodiode row and one Lasers row appended to their two distinct partition
files — sharing the same resolved `ist_str`/`utc_str`/`mjd` triple; and
whenever either write fails the handler returns one fixed 500 message, not
distinguishing partial from total failure and not saying which write
failed. -/
theorem claim_C7_fanout_amended :
    ∀ (fs : FS) (form : Form) (now_epoch : ℤ) (td : TimeData),
      form ≠ [] →
      all_fields.filter (fun f => (form.lookup f).isNone) = [] →
      firstInvalid all_fields form = none →
      (get_time_data (form.lookup "timestamp") now_epoch
          = .error .overflowError →
        ∀ errP errL : Bool, save_sensor_data fs errP errL form now_epoch
          = .error .overflowError) ∧
      (get_time_data (form.lookup "timestamp") now_epoch = .ok td →
        (∀ errP errL : Bool, (errP || errL) = true →
          (save_sensor_data fs errP errL form now_epoch).map Prod.snd
            = .ok ⟨"Failed to write data to one or both CSV files.", 500⟩) ∧
        ∃ fs2, save_sensor_data fs false false form now_epoch
            = .ok (fs2, ⟨"Data saved successfully at " ++ istStr td.ist, 200⟩)
          ∧ ∃ (prevP prevL : List (List Cell)) (rP rL : List Cell),
              fs2 (serverKey "Photodiode"
                  (civilFromEpoch (now_epoch + IST_OFFSET)))
                = some (prevP ++ [rP])
              ∧ fs2 (serverKey "Lasers"
                  (civilFromEpoch (now_epoch + IST_OFFSET)))
                = some (prevL ++ [rL])
              ∧ rP.take 3 = [Cell.s (istStr td.ist), Cell.s (utcStr td.utc),
                  Cell.q td.mjd]
              ∧ rL.take 3 = rP.take 3) := by
  intro fs form now_epoch td hne hmiss hinv
  constructor
  · intro hovf errP errL
    exact save_sensor_data_raises fs errP errL form now_epoch .overflowError
      hne hmiss hinv hovf
  · intro htd
    constructor
    · intro errP errL herr
      rw [save_sensor_data_run fs errP errL form now_epoch td hne hmiss hinv htd]
      simp only [write_to_csv_snd]
      have hcond : (!errP && !errL) = false := by
        cases errP <;> cases errL <;> simp_all
      rw [hcond]
      rfl
    · refine ⟨(write_to_csv
          (write_to_csv fs false "Photodiode"
            (sensor_headers required_photodiode)
            (sensor_row td form required_photodiode)
            (civilFromEpoch (now_epoch + IST_OFFSET))).1
          false "Lasers" (sensor_headers required_lasers)
          (sensor_row td form required_lasers)
          (civilFromEpoch (now_epoch + IST_OFFSET))).1, ?_, ?_⟩
      · rw [save_sensor_data_run fs false false form now_epoch td hne hmiss hinv htd]
        simp only [write_to_csv_snd]
        rfl
      · have hkne : serverKey "Lasers" (civilFromEpoch (now_epoch + IST_OFFSET))
            ≠ serverKey "Photodiode" (civilFromEpoch (now_epoch + IST_OFFSET)) := by
          intro hcon
          have h1 := congrArg WKey.category_dir hcon
          simp only [serverKey] at h1
          exact absurd h1 (by decide)
        obtain ⟨prevL, hL⟩ := write_ok_at_key
          (write_to_csv fs false "Photodiode" (sensor_headers required_photodiode)
            (sensor_row td form required_photodiode)
            (civilFromEpoch (now_epoch + IST_OFFSET))).1
          "Lasers" (sensor_headers required_lasers)
          (sensor_row td form required_lasers)
          (civilFromEpoch (now_epoch + IST_OFFSET))
        obtain ⟨prevP, hP⟩ := write_ok_at_key fs "Photodiode"
          (sensor_headers required_photodiode)
          (sensor_row td form required_photodiode)
          (civilFromEpoch (now_epoch + IST_OFFSET))
        refine ⟨prevP, prevL,
          sensor_row td form required_photodiode,
          sensor_row td form required_lasers, ?_, ?_, rfl, rfl⟩
        · rw [write_ok_other _ _ _ _ _ _ hkne.symm]
          exact hP
        · exact hL

set_option maxRecDepth 8000 in
/-- Witness for C7 (amended) on concrete requests: the overflow-timestamp
request aborts with the uncaught error; one failing write yields the fixed
500 message; a clean run yields the 200 with the resolved timestamp. -/
theorem claim_C7_fanout_amended_witness :
    save_sensor_data emptyFS false false formOverflow 1700000000
        = .error .overflowError
      ∧ (save_sensor_data emptyFS true false formOK 1700000000).map Prod.snd
        = .ok ⟨"Failed to write data to one or both CSV files.", 500⟩
      ∧ ∃ fs2, save_sensor_data emptyFS false false formOK 1700000000
          = .ok (fs2, ⟨"Data saved successfully at "
              ++ istStr (timeDataOfIst
                  (civilFromEpoch (1700000000 + IST_OFFSET))).ist, 200⟩) :=
  ⟨(claim_C7_fanout_amended emptyFS formOverflow 1700000000
      (timeDataOfIst (civilFromEpoch (1700000000 + IST_OFFSET)))
      (by decide) (by decide) (by decide)).1 rfl false false,
   ((claim_C7_fanout_amended emptyFS formOK 1700000000
      (timeDataOfIst (civilFromEpoch (1700000000 + IST_OFFSET)))
      (by decide) (by decide) (by decide)).2 rfl).1 true false rfl,
   (((claim_C7_fanout_amended emptyFS formOK 1700000000
      (timeDataOfIst (civilFromEpoch (1700000000 + IST_OFFSET)))
      (by decide) (by decide) (by decide)).2 rfl).2).imp
     (fun fs2 h => h.1)⟩

/-! ### Historical reader (`src/fe/csv_reader.py`) -/

/-- Embedding of a Python `datetime.date`. -/
structure PyDate where
  year : ℕ
  month : ℕ
  day : ℕ
  deriving Repr, DecidableEq

/-- Python `date` ordering: lexicographic on (year, month, day). -/
def PyDate.le (a b : PyDate) : Prop :=
  a.year < b.year ∨ (a.year = b.year ∧ (a.month < b.month ∨
    (a.month = b.month ∧ a.day ≤ b.day)))

instance : LE PyDate := ⟨PyDate.le⟩

instance (a b : PyDate) : Decidable (a ≤ b) := by
  show Decidable (PyDate.le a b)
  unfold PyDate.le
  infer_instance

/-- Valid calendar date, as the `datetime.date` constructor enforces. -/
def ValidDate (d : PyDate) : Prop :=
  1 ≤ d.year ∧ d.year ≤ 9999 ∧ 1 ≤ d.month ∧ d.month ≤ 12 ∧
    1 ≤ d.day ∧ d.day ≤ _days_in_month d.year d.month

instance (d : PyDate) : Decidable (ValidDate d) := by
  unfold ValidDate; infer_instance

/-- A row as `csv.DictReader` yields it: the `timestamp` cell plus the
remaining named cells.  (A row without a `timestamp` key is modelled by the
empty string, which Python's truthiness test treats identically.) -/
structure Row where
  timestamp : String
  cells : List (String × String)
  deriving Repr, DecidableEq

/-- A partition file on disk as the reader's glob
`DATASET_BASE_DIR/{data_type}/*/{data_type}_*.csv` sees it: category
directory, month folder, the date the writer embedded in its name, and its
parsed rows. -/
structure PFile where
  data_type : String
  month_folder : String
  fdate : PyDate
  rows : List Row
  deriving Repr, DecidableEq

/-- strftime `%Y-%m-%d` of a date, as the writers embed it in file names. -/
def dateChars (d : PyDate) : List Char :=
  pad4 d.year ++ '-' :: pad2 d.month ++ '-' :: pad2 d.day

/-- The file's base name `{data_type}_{date}.csv`. -/
def fileName (f : PFile) : List Char :=
  f.data_type.data ++ '_' :: (dateChars f.fdate ++ ".csv".data)

/-- The file's path below the shared base directory,
`{data_type}/{month_folder}/{name}` (the common absolute prefix cannot
affect comparisons between globbed files). -/
def relPath (f : PFile) : List Char :=
  f.data_type.data ++ '/' :: (f.month_folder.data ++ '/' :: fileName f)

/-- Python string `<`: lexicographic by code point. -/
def pyLt : List Char → List Char → Bool
  | [], [] => false
  | [], _ :: _ => true
  | _ :: _, [] => false
  | a :: as, b :: bs =>
    if a.toNat < b.toNat then true
    else if a.toNat = b.toNat then pyLt as bs else false

/-- Ascending insertion by path. -/
def insertAsc (x : PFile) : List PFile → List PFile
  | [] => [x]
  | y :: ys =>
    if pyLt (relPath x) (relPath y) then x :: y :: ys else y :: insertAsc x ys

/-- Embeds Python `sorted(files)` over the globbed files: ascending by full
path string.  (Two distinct files never share a path, so tie order is
immaterial.) -/
def sortByPath : List PFile → List PFile
  | [] => []
  | x :: xs => insertAsc x (sortByPath xs)

/-- Embeds `str.split(sep)` for a one-character separator. -/
def pySplit (sep : Char) : List Char → List (List Char)
  | [] => [[]]
  | c :: rest =>
    let r := pySplit sep rest
    if c = sep then [] :: r
    else
      match r with
      | h :: t => (c :: h) :: t
      | [] => [[c]]

/-- Embeds `str.replace('.csv', '')`: removes every non-overlapping
occurrence, scanning left to right. -/
def replaceCsv : List Char → List Char
  | '.' :: 'c' :: 's' :: 'v' :: rest => replaceCsv rest
  | c :: rest => c :: replaceCsv rest
  | [] => []

/-- Embeds `str.replace(' IST', '')`: removes every non-overlapping
occurrence, scanning left to right. -/
def replaceIST : List Char → List Char
  | ' ' :: 'I' :: 'S' :: 'T' :: rest => replaceIST rest
  | c :: rest => c :: replaceIST rest
  | [] => []

/-- Embeds `str.strip()` on the character list (ASCII whitespace). -/
def stripChars (l : List Char) : List Char :=
  ((l.dropWhile isWs).reverse.dropWhile isWs).reverse

/-- Embeds `str.strip()`. -/
def pyStrip (s : String) : String :=
  ⟨stripChars s.data⟩

/-- Embeds `datetime.strptime(date_str, '%Y-%m-%d').date()` as used by
`extract_date_from_filename` (`none` where Python raises `ValueError`). -/
def pyStrptimeDate (s : List Char) : Option PyDate := do
  let (y, r1) ← parse4 s
  let r2 ← expectChar '-' r1
  let (mo, r3) ← parse2or1 r2
  let r4 ← expectChar '-' r3
  let (d, r5) ← parse2or1 r4
  if r5 = [] ∧ 1 ≤ y ∧ 1 ≤ mo ∧ mo ≤ 12 ∧ 1 ≤ d ∧ d ≤ _days_in_month y mo then
    some ⟨y, mo, d⟩
  else none

/-- Embeds `extract_date_from_filename(filename)` from
`src/fe/csv_reader.py` lines 27-31, applied to a file path:
`os.path.basename` (the part after the last `/`), then
`base.split('_')[-1].replace('.csv', '')`, parsed with strptime
`'%Y-%m-%d'`. -/
def extract_date_from_filename (path : List Char) : Option PyDate :=
  let base := ((pySplit '/' path).getLast?).getD []
  let date_str := replaceCsv (((pySplit '_' base).getLast?).getD [])
  pyStrptimeDate date_str

/-- Embeds `get_csv_files(data_type, start_date, end_date)` from
`src/fe/csv_reader.py` lines 20-25: glob
`{base}/{data_type}/*/{data_type}_*.csv` (every stored partition file of the
category matches the pattern), optional inclusive filtering by the date
extracted from each file name, then `sorted(...)` over the path strings.
(On the writer-generated names in the store the extraction always succeeds —
see `extract_relPath`; a hypothetical unparseable name, on which the Python
code would raise, is treated as out of range.) -/
def get_csv_files (store : List PFile) (data_type : String)
    (rng : Option (PyDate × PyDate)) : List PFile :=
  let files := store.filter (fun f => f.data_type == data_type)
  let files :=
    match rng with
    | some (d1, d2) =>
      files.filter (fun f =>
        match extract_date_from_filename (relPath f) with
        | some d => decide (d1 ≤ d) && decide (d ≤ d2)
        | none => false)
    | none => files
  sortByPath files

/-- Embeds `read_data_by_range(data_type, start_date, end_date)` from
`src/fe/csv_reader.py` lines 52-57: the selected files' rows concatenated in
file order, row order preserved within each file. -/
def read_data_by_range (store : List PFile) (data_type : String)
    (d1 d2 : PyDate) : List Row :=
  (get_csv_files store data_type (some (d1, d2))).flatMap PFile.rows

/-- Embeds `get_most_recent(data_type)` from `src/fe/csv_reader.py` lines
59-65: all partitions of the category (no range filter), the
lexicographically-last path, and that file's literal last row — no skipping
of blank rows. -/
def get_most_recent (store : List PFile) (data_type : String) : Option Row :=
  match (get_csv_files store data_type none).getLast? with
  | none => none
  | some f => f.rows.getLast?

/-- The live-photodiode row filter (`csv_reader.py` line 116):
`row.get('timestamp') and row['timestamp'].strip() and not
row['timestamp'].strip().startswith('IST')`. -/
def phRowKeep (r : Row) : Bool :=
  r.timestamp ≠ "" && pyStrip r.timestamp ≠ ""
    && !(("IST".data).isPrefixOf (pyStrip r.timestamp).data)

/-- The float conversions performed while building the latest-value dict: a
present nonempty value must be accepted by `float()` (a rejected one raises
`ValueError`, turning the whole result into `None`); a missing or empty
value becomes `None` without an error. -/
def rowFloatsOK (r : Row) (keys : List String) : Bool :=
  keys.all (fun k =>
    match r.cells.lookup k with
    | some v => v == "" || pyFloatAccepts v
    | none => true)

/-- Embeds `get_latest_photodiode(folder_path)` from `src/fe/csv_reader.py`
lines 101-138 (the argument is the `Photodiode_data` directory): glob,
sorted, last file; keep only rows passing `phRowKeep`; the last kept row is
returned with its parsed timestamp (`' IST'` removed, stripped, strptime),
or `none` when there is no file, no row survives the filter, the timestamp
does not parse, or a float conversion fails. -/
def get_latest_photodiode (store : List PFile) : Option (Row × PyDatetime) :=
  match (sortByPath (store.filter
      (fun f => f.data_type == "Photodiode_data"))).getLast? with
  | none => none
  | some f =>
    match (f.rows.filter phRowKeep).getLast? with
    | none => none
    | some r =>
      match pyStrptime ⟨stripChars (replaceIST r.timestamp.data)⟩ with
      | some ts =>
        if rowFloatsOK r ["P1", "P2", "P3", "P4", "P5", "MJD"] then some (r, ts)
        else none
      | none => none

/-- Embeds `get_latest_laser(folder_path)` from `src/fe/csv_reader.py`
lines 287-325: the same shape EXCEPT `rows = list(reader)` — no filtering of
blank or placeholder timestamps — so the literal last row of the last file
is used, and an unparseable timestamp there makes the whole result `none`
rather than falling back to an earlier row. -/
def get_latest_laser (store : List PFile) : Option (Row × PyDatetime) :=
  match (sortByPath (store.filter
      (fun f => f.data_type == "Lasers_data"))).getLast? with
  | none => none
  | some f =>
    match f.rows.getLast? with
    | none => none
    | some r =>
      match pyStrptime ⟨stripChars (replaceIST r.timestamp.data)⟩ with
      | some ts =>
        if rowFloatsOK r ["X1", "X2", "Y1", "Y2", "Z1", "Z2", "D1", "D2", "MJD"]
        then some (r, ts)
        else none
      | none => none

/-- Modelled from the claim's words, for comparison (C9): a "latest" that
skips trailing rows with blank timestamps when determining the last valid
row. -/
def claimed_latest_with_skip (store : List PFile) (data_type : String) :
    Option Row :=
  match (sortByPath (store.filter (fun f => f.data_type == data_type))).getLast? with
  | none => none
  | some f => (f.rows.filter (fun r => pyStrip r.timestamp ≠ "")).getLast?


/-- A March partition row for the range-read examples. -/
def rowMarch : Row := ⟨"2025-03-15 09:00:00 IST", [("P1", "1.0")]⟩

/-- An April partition row for the range-read examples. -/
def rowApril : Row := ⟨"2025-04-10 10:00:00 IST", [("P1", "2.0")]⟩

/-- A March 2025 photodiode partition file. -/
def fileMarch : PFile := ⟨"Photodiode_data", "March_2025", ⟨2025, 3, 15⟩, [rowMarch]⟩

/-- An April 2025 photodiode partition file. -/
def fileApril : PFile := ⟨"Photodiode_data", "April_2025", ⟨2025, 4, 10⟩, [rowApril]⟩

/-- A store holding one March and one April photodiode partition. -/
def exRangeStore : List PFile := [fileMarch, fileApril]

/-- A well-formed laser row. -/
def goodLaserRow : Row := ⟨"2025-04-10 11:00:00 IST", [("X1", "1.0")]⟩

/-- A trailing laser row with a blank timestamp. -/
def blankLaserRow : Row := ⟨"", [("X1", "")]⟩

/-- The laser partition file whose last row has a blank timestamp. -/
def exLaserFile : PFile :=
  ⟨"Lasers_data", "April_2025", ⟨2025, 4, 10⟩, [goodLaserRow, blankLaserRow]⟩

/-- A laser store whose newest file ends in a blank row. -/
def exLaserStore : List PFile := [exLaserFile]

/-- A well-formed photodiode row. -/
def goodPhRow : Row := ⟨"2025-04-10 11:00:00 IST", [("P1", "1.0")]⟩

/-- A trailing photodiode row with a blank timestamp. -/
def blankPhRow : Row := ⟨"", [("P1", "")]⟩

/-- The photodiode partition file whose last row has a blank timestamp. -/
def exPhFile : PFile :=
  ⟨"Photodiode_data", "April_2025", ⟨2025, 4, 10⟩, [goodPhRow, blankPhRow]⟩

/-- A photodiode store whose newest file ends in a blank row. -/
def exPhStore : List PFile := [exPhFile]

/-- Validity of the calendar fields of a `PyDatetime`, as enforced by the
`datetime.datetime` constructor (years 1..9999, real month and day-of-month,
time of day). `microsecond = 0` records that a value carries no sub-second
component (all datetimes produced by `strptime '%Y-%m-%d %H:%M:%S'` have this
form). -/
def ValidDT (dt : PyDatetime) : Prop :=
  1 ≤ dt.year ∧ dt.year ≤ 9999 ∧ 1 ≤ dt.month ∧ dt.month ≤ 12 ∧
    1 ≤ dt.day ∧ dt.day ≤ _days_in_month dt.year dt.month ∧ dt.hour ≤ 23 ∧
    dt.minute ≤ 59 ∧ dt.second ≤ 59 ∧ dt.microsecond = 0

instance (dt : PyDatetime) : Decidable (ValidDT dt) := by
  unfold ValidDT; infer_instance

/-- The modern date range the system supports (lab data: proleptic concerns
and historical timezone offsets are out of range). -/
def ModernDT (dt : PyDatetime) : Prop :=
  ValidDT dt ∧ 1900 ≤ dt.year

instance (dt : PyDatetime) : Decidable (ModernDT dt) := by
  unfold ModernDT; infer_instance

theorem days_in_month_le31 (y m : ℕ) (hm1 : 1 ≤ m) (hm2 : m ≤ 12) :
    _days_in_month y m ≤ 31 := by
  unfold _days_in_month
  split_ifs
  · omega
  · interval_cases m <;> norm_num [_DAYS_IN_MONTH]

theorem digitChar_isDigit (d : ℕ) (h : d ≤ 9) : (digitChar d).isDigit = true := by
  interval_cases d <;> decide

theorem digitVal_digitChar (d : ℕ) (h : d ≤ 9) : digitVal (digitChar d) = d := by
  interval_cases d <;> decide

theorem isWs_digitChar (d : ℕ) (h : d ≤ 9) : isWs (digitChar d) = false := by
  interval_cases d <;> decide

theorem parse4_pad4 (n : ℕ) (hn : n ≤ 9999) (rest : List Char) :
    parse4 (pad4 n ++ rest) = some (n, rest) := by
  have h1 := digitChar_isDigit (n / 1000 % 10) (by omega)
  have h2 := digitChar_isDigit (n / 100 % 10) (by omega)
  have h3 := digitChar_isDigit (n / 10 % 10) (by omega)
  have h4 := digitChar_isDigit (n % 10) (by omega)
  have v1 := digitVal_digitChar (n / 1000 % 10) (by omega)
  have v2 := digitVal_digitChar (n / 100 % 10) (by omega)
  have v3 := digitVal_digitChar (n / 10 % 10) (by omega)
  have v4 := digitVal_digitChar (n % 10) (by omega)
  simp only [pad4, List.cons_append, List.nil_append, parse4, h1, h2, h3, h4,
    Bool.true_and, Bool.and_self, if_true, v1, v2, v3, v4]
  have hv : ((n / 1000 % 10 * 10 + n / 100 % 10) * 10 + n / 10 % 10) * 10 + n % 10
      = n := by omega
  rw [hv]

theorem parse2or1_pad2 (n : ℕ) (hn : n ≤ 99) (rest : List Char) :
    parse2or1 (pad2 n ++ rest) = some (n, rest) := by
  have h1 := digitChar_isDigit (n / 10 % 10) (by omega)
  have h2 := digitChar_isDigit (n % 10) (by omega)
  have v1 := digitVal_digitChar (n / 10 % 10) (by omega)
  have v2 := digitVal_digitChar (n % 10) (by omega)
  simp only [pad2, List.cons_append, List.nil_append, parse2or1, h1, h2,
    if_true, v1, v2]
  have hv : 10 * (n / 10 % 10) + n % 10 = n := by omega
  rw [hv]

theorem expectChar_cons (c : Char) (l : List Char) :
    expectChar c (c :: l) = some l := by
  simp [expectChar]

theorem skipWs1_space_pad2 (n : ℕ) (l : List Char) :
    skipWs1 (' ' :: (pad2 n ++ l)) = some (pad2 n ++ l) := by
  have h1 := isWs_digitChar (n / 10 % 10) (by omega)
  simp only [skipWs1, pad2, List.cons_append, List.dropWhile_cons, h1]
  norm_num [isWs]

/-- `strptime` inverts `strftime` on every valid datetime: the canonical
`'YYYY-MM-DD HH:MM:SS'` rendering of a valid instant parses back to exactly
that instant. -/
theorem pyStrptime_strftime (dt : PyDatetime) (h : ValidDT dt) :
    pyStrptime (strftimeFmt dt) = some dt := by
  obtain ⟨h1, h2, h3, h4, h5, h6, h7, h8, h9, h10⟩ := h
  have hdim : _days_in_month dt.year dt.month ≤ 31 :=
    days_in_month_le31 dt.year dt.month h3 h4
  have hsec : parse2or1 (pad2 dt.second) = some (dt.second, []) := by
    have h := parse2or1_pad2 dt.second (by omega) []
    simpa using h
  simp only [pyStrptime, strftimeFmt, strftimeChars, List.append_assoc,
    List.cons_append, List.nil_append,
    parse4_pad4 dt.year (by omega), Option.bind_eq_bind, Option.some_bind,
    expectChar_cons, parse2or1_pad2 dt.month (by omega),
    parse2or1_pad2 dt.day (by omega), skipWs1_space_pad2,
    parse2or1_pad2 dt.hour (by omega), parse2or1_pad2 dt.minute (by omega),
    hsec]
  rw [if_pos ⟨trivial, h1, h3, h4, h5, h6, h7, h8, h9⟩]
  rw [← h10]

theorem ymd2ord_lower (y m d : ℕ) (h : 1900 ≤ y) : 693135 ≤ _ymd2ord y m d := by
  unfold _ymd2ord _days_before_year
  obtain ⟨y1, rfl⟩ : ∃ y1, y = y1 + 1900 := ⟨y - 1900, by omega⟩
  have h1 : y1 + 1900 - 1 = y1 + 1899 := by omega
  rw [h1]
  obtain ⟨x, hx⟩ : ∃ x, y1 + 1899 = x := ⟨_, rfl⟩
  rw [hx]
  omega

theorem pySplit_ne_nil (sep : Char) (l : List Char) : pySplit sep l ≠ [] := by
  induction l with
  | nil => simp [pySplit]
  | cons c rest ih =>
    simp only [pySplit]
    by_cases hc : c = sep
    · simp [hc]
    · rw [if_neg hc]
      rcases hr : pySplit sep rest with _ | ⟨h, t⟩
      · exact absurd hr ih
      · simp

theorem pySplit_len2 (sep : Char) (l : List Char) (h : sep ∈ l) :
    2 ≤ (pySplit sep l).length := by
  induction l with
  | nil => simp at h
  | cons c rest ih =>
    simp only [pySplit]
    by_cases hc : c = sep
    · rw [if_pos hc]
      rcases hr : pySplit sep rest with _ | ⟨hh, t⟩
      · exact absurd hr (pySplit_ne_nil sep rest)
      · simp
    · rw [if_neg hc]
      have hmem : sep ∈ rest := by
        rcases List.mem_cons.mp h with h1 | h1
        · exact absurd h1.symm hc
        · exact h1
      rcases hr : pySplit sep rest with _ | ⟨hh, t⟩
      · exact absurd hr (pySplit_ne_nil sep rest)
      · have h2 := ih hmem
        rw [hr] at h2
        simpa using h2

theorem pySplit_no_sep (sep : Char) (l : List Char) (h : sep ∉ l) :
    pySplit sep l = [l] := by
  induction l with
  | nil => simp [pySplit]
  | cons c rest ih =>
    have hc : ¬ c = sep := fun hcon => h (by simp [hcon])
    have hrest : sep ∉ rest := fun hcon => h (by simp [hcon])
    simp only [pySplit]
    rw [if_neg hc, ih hrest]

theorem pySplit_getLast_append (sep : Char) (a b : List Char) :
    (pySplit sep (a ++ sep :: b)).getLast? = (pySplit sep b).getLast? := by
  induction a with
  | nil =>
    have hstep : pySplit sep ([] ++ sep :: b) = [] :: pySplit sep b := by
      simp [pySplit]
    rw [hstep]
    rcases hr : pySplit sep b with _ | ⟨h, t⟩
    · exact absurd hr (pySplit_ne_nil sep b)
    · rw [List.getLast?_cons_cons]
  | cons c a2 ih =>
    simp only [List.cons_append, pySplit]
    by_cases hc : c = sep
    · rw [if_pos hc]
      rcases hr : pySplit sep (a2 ++ sep :: b) with _ | ⟨h, t⟩
      · exact absurd hr (pySplit_ne_nil sep _)
      · rw [List.getLast?_cons_cons]
        rw [hr] at ih
        exact ih
    · rw [if_neg hc]
      have hlen := pySplit_len2 sep (a2 ++ sep :: b) (by simp)
      rcases hr : pySplit sep (a2 ++ sep :: b) with _ | ⟨h, t⟩
      · exact absurd hr (pySplit_ne_nil sep _)
      · rcases t with _ | ⟨h2, t2⟩
        · rw [hr] at hlen
          simp at hlen
        · rw [hr] at ih
          rw [List.getLast?_cons_cons] at ih ⊢
          exact ih

theorem replaceCsv_cons_ne (c : Char) (xs : List Char) (hc : c ≠ '.') :
    replaceCsv (c :: xs) = c :: replaceCsv xs := by
  rw [replaceCsv.eq_def]
  split
  · next rest heq =>
    rw [List.cons.injEq] at heq
    exact absurd heq.1 hc
  · next c2 rest2 heq =>
    rw [List.cons.injEq] at heq
    rw [heq.1, heq.2]
  · next heq =>
    exact absurd heq (by simp)

theorem replaceCsv_append (l m : List Char) (h : ∀ c ∈ l, c ≠ '.') :
    replaceCsv (l ++ m) = l ++ replaceCsv m := by
  induction l with
  | nil => simp
  | cons c l2 ih =>
    rw [List.cons_append, replaceCsv_cons_ne c _ (h c (by simp)),
      ih (fun x hx => h x (by simp [hx])), List.cons_append]

theorem isDigit_ne_dot {c : Char} (h : c.isDigit = true) : c ≠ '.' := by
  intro hc
  subst hc
  exact absurd h (by decide)

theorem isDigit_ne_us {c : Char} (h : c.isDigit = true) : c ≠ '_' := by
  intro hc
  subst hc
  exact absurd h (by decide)

theorem isDigit_ne_slash {c : Char} (h : c.isDigit = true) : c ≠ '/' := by
  intro hc
  subst hc
  exact absurd h (by decide)

theorem mem_dateChars {c : Char} {d : PyDate} (h : c ∈ dateChars d) :
    c = '-' ∨ c.isDigit = true := by
  simp only [dateChars, pad4, pad2, List.append_assoc, List.cons_append,
    List.nil_append, List.mem_cons, List.not_mem_nil, or_false] at h
  rcases h with h | h | h | h | h | h | h | h | h | h <;> subst h <;>
    first
      | exact Or.inl rfl
      | exact Or.inr (digitChar_isDigit _ (by omega))

theorem us_not_mem_dateChars (d : PyDate) : '_' ∉ dateChars d := by
  intro h
  rcases mem_dateChars h with h1 | h1
  · exact absurd h1 (by decide)
  · exact absurd rfl (isDigit_ne_us h1)

theorem slash_not_mem_dateChars (d : PyDate) : '/' ∉ dateChars d := by
  intro h
  rcases mem_dateChars h with h1 | h1
  · exact absurd h1 (by decide)
  · exact absurd rfl (isDigit_ne_slash h1)

theorem dot_not_mem_dateChars (d : PyDate) : '.' ∉ dateChars d := by
  intro h
  rcases mem_dateChars h with h1 | h1
  · exact absurd h1 (by decide)
  · exact absurd rfl (isDigit_ne_dot h1)

theorem pyStrptimeDate_dateChars (d : PyDate) (h : ValidDate d) :
    pyStrptimeDate (dateChars d) = some d := by
  obtain ⟨h1, h2, h3, h4, h5, h6⟩ := h
  have hday : parse2or1 (pad2 d.day) = some (d.day, []) := by
    have hle := days_in_month_le31 d.year d.month h3 h4
    have hp := parse2or1_pad2 d.day (by omega) []
    simpa using hp
  simp only [pyStrptimeDate, dateChars, List.append_assoc, List.cons_append,
    List.nil_append, parse4_pad4 d.year (by omega), Option.bind_eq_bind,
    Option.some_bind, expectChar_cons, parse2or1_pad2 d.month (by omega), hday]
  rw [if_pos ⟨trivial, h1, h3, h4, h5, h6⟩]

theorem extract_relPath (f : PFile) (hv : ValidDate f.fdate)
    (hslash : '/' ∉ f.data_type.data) :
    extract_date_from_filename (relPath f) = some f.fdate := by
  have hfn : '/' ∉ fileName f := by
    intro hmem
    simp only [fileName, List.mem_append, List.mem_cons] at hmem
    rcases hmem with h1 | h1 | h1 | h1
    · exact hslash h1
    · exact absurd h1 (by decide)
    · exact slash_not_mem_dateChars f.fdate h1
    · revert h1
      decide
  have hY : '_' ∉ dateChars f.fdate ++ ".csv".data := by
    intro hmem
    rcases List.mem_append.mp hmem with h1 | h1
    · exact us_not_mem_dateChars f.fdate h1
    · revert h1
      decide
  unfold extract_date_from_filename
  rw [show relPath f = f.data_type.data
      ++ '/' :: (f.month_folder.data ++ '/' :: fileName f) from rfl]
  rw [pySplit_getLast_append '/' f.data_type.data _,
    pySplit_getLast_append '/' f.month_folder.data _,
    pySplit_no_sep '/' _ hfn]
  rw [show fileName f = f.data_type.data
      ++ '_' :: (dateChars f.fdate ++ ".csv".data) from rfl]
  simp only [List.getLast?_singleton, Option.getD_some]
  rw [pySplit_getLast_append '_' f.data_type.data _,
    pySplit_no_sep '_' _ hY]
  simp only [List.getLast?_singleton, Option.getD_some]
  rw [replaceCsv_append _ _ (fun c hc => by
      rcases mem_dateChars hc with h1 | h1
      · subst h1
        decide
      · exact isDigit_ne_dot h1)]
  rw [show replaceCsv ".csv".data = [] from rfl]
  rw [List.append_nil]
  exact pyStrptimeDate_dateChars f.fdate hv

set_option maxRecDepth 8000 in
/-- C2: counterexample.  The push-path resolution is not total and does not
always fall back: for the raw field `"9223372036854775808"` (= 2^63, parsed
fine by Python `int()`), `fromtimestamp` raises `OverflowError`, which
`except (KeyError, ValueError, OSError)` does not catch — `get_time_data`
raises instead of using server time. -/
theorem claim_C2_counterexample :
    get_time_data (some "9223372036854775808") 1700000000
        = .error .overflowError
      ∧ get_time_data (some "9223372036854775808") 1700000000
          ≠ get_time_data none 1700000000 := by
  refine ⟨rfl, fun h => Except.noConfusion h⟩

/-- C2 (amended): on the poll path the resolver is total — every string
`strptime` rejects falls back to the supplied server time, whose UTC value
denotes the same absolute instant.  On the push path a missing field, an
unparseable field, and an epoch on which `fromtimestamp` raises the caught
`ValueError`/`OSError` all fall back identically to server time; but an
epoch in the `OverflowError` region (`fromtimestampOverflow`) raises out of
`get_time_data` uncaught instead of falling back. -/
theorem claim_C2_fallback_amended :
    (∀ (s : String) (now : PyDatetime), ModernDT now → pyStrptime s = none →
      process_timestamp (some s) now = process_timestamp none now
        ∧ epochOfCivil ((process_timestamp (some s) now).utc)
            = epochOfCivil now - IST_OFFSET) ∧
    (∀ (raw : Option String) (now_epoch : ℤ), 0 ≤ now_epoch →
      (raw.bind pyIntParse = none
        ∨ (∃ e, raw.bind pyIntParse = some e ∧ ¬fromtimestampOK e
            ∧ ¬fromtimestampOverflow e)) →
      get_time_data raw now_epoch = get_time_data none now_epoch
        ∧ ∃ td, get_time_data none now_epoch = .ok td
            ∧ epochOfCivil td.utc = now_epoch) ∧
    (∀ (raw : Option String) (now_epoch e : ℤ),
      raw.bind pyIntParse = some e → fromtimestampOverflow e →
      get_time_data raw now_epoch = .error .overflowError) := by
  refine ⟨?_, ?_, ?_⟩
  · intro s now hmod hparse
    have heq : process_timestamp (some s) now = process_timestamp none now := by
      unfold process_timestamp
      by_cases hs : s = "" <;> simp [hs, hparse]
    refine ⟨heq, ?_⟩
    rw [heq]
    have hutc : (process_timestamp none now).utc = istToUtc now := rfl
    rw [hutc]
    unfold istToUtc
    apply epochOfCivil_civilFromEpoch
    have hord := ymd2ord_lower now.year now.month now.day hmod.2
    unfold epochOfCivil
    obtain ⟨t, ht⟩ : ∃ t, ((_ymd2ord now.year now.month now.day : ℤ) - 719163) * 86400
        + 3600 * (now.hour : ℤ) + 60 * (now.minute : ℤ) + (now.second : ℤ)
        - IST_OFFSET = t := ⟨_, rfl⟩
    rw [ht]
    have hlow : (-2500000000 : ℤ) ≤ t := by
      rw [← ht]
      unfold IST_OFFSET
      omega
    omega
  · intro raw now_epoch h0 hfail
    have heq : get_time_data raw now_epoch = get_time_data none now_epoch := by
      unfold get_time_data
      rcases hfail with hn | ⟨e, he, hbadOK, hbadOvf⟩
      · rw [hn]
        rfl
      · simp only [he]
        rw [if_neg hbadOvf, if_neg hbadOK]
        rfl
    refine ⟨heq, timeDataOfIst (civilFromEpoch (now_epoch + IST_OFFSET)), rfl, ?_⟩
    show epochOfCivil (istToUtc (civilFromEpoch (now_epoch + IST_OFFSET)))
      = now_epoch
    have hr1 : epochOfCivil (civilFromEpoch (now_epoch + IST_OFFSET))
        = now_epoch + IST_OFFSET := by
      apply epochOfCivil_civilFromEpoch
      unfold IST_OFFSET
      omega
    unfold istToUtc
    rw [hr1]
    have h2 : now_epoch + IST_OFFSET - IST_OFFSET = now_epoch := by ring
    rw [h2]
    apply epochOfCivil_civilFromEpoch
    omega
  · intro raw now_epoch e he hovf
    unfold get_time_data
    simp only [he]
    rw [if_pos hovf]

set_option maxRecDepth 8000 in
/-- Witness for C2 (amended): a malformed poll-path string, an unparseable
push-path field, and an epoch just past the IST year-10000 shift boundary
(the `OverflowError` region) at concrete modern instants. -/
theorem claim_C2_fallback_amended_witness :
    (process_timestamp (some "not-a-time") ⟨2024, 1, 15, 10, 0, 0, 0⟩
        = process_timestamp none ⟨2024, 1, 15, 10, 0, 0, 0⟩
      ∧ epochOfCivil ((process_timestamp (some "not-a-time")
            ⟨2024, 1, 15, 10, 0, 0, 0⟩).utc)
          = epochOfCivil ⟨2024, 1, 15, 10, 0, 0, 0⟩ - IST_OFFSET) ∧
    (get_time_data (some "12abc") 1700000000 = get_time_data none 1700000000
      ∧ ∃ td, get_time_data none 1700000000 = .ok td
          ∧ epochOfCivil td.utc = 1700000000) ∧
    get_time_data (some "253402281000") 1700000000 = .error .overflowError :=
  ⟨claim_C2_fallback_amended.1 "not-a-time" ⟨2024, 1, 15, 10, 0, 0, 0⟩
      (by decide) (by decide),
   claim_C2_fallback_amended.2.1 (some "12abc") 1700000000 (by decide)
      (Or.inl (by decide)),
   claim_C2_fallback_amended.2.2 (some "253402281000") 1700000000 253402281000
      (by decide) (by decide)⟩

/-- C3: the two raw-timestamp forms are interpreted asymmetrically. A string
in canonical `'YYYY-MM-DD HH:MM:SS'` form is treated as already-local civil
time: the lab timezone is attached without conversion, so the resolved local
fields equal the parsed fields and `ist_str` is exactly the input string plus
the `' IST'` suffix. An integer epoch is treated as an absolute UTC instant
and converted: the resolved local fields are the civil IST rendering of that
instant (so reading them back as IST yields the epoch), and the UTC fields
are the civil UTC rendering of the same epoch. -/
theorem claim_C3_two_branch_asymmetry :
    (∀ (dt now : PyDatetime), ValidDT dt →
      (process_timestamp (some (strftimeFmt dt)) now).ist = dt
        ∧ istStr ((process_timestamp (some (strftimeFmt dt)) now).ist)
            = strftimeFmt dt ++ " IST") ∧
    (∀ (s : String) (e now_epoch : ℤ),
      pyIntParse s = some e → fromtimestampOK e →
      get_time_data (some s) now_epoch
          = .ok (timeDataOfIst (civilFromEpoch (e + IST_OFFSET)))
        ∧ epochOfCivil (civilFromEpoch (e + IST_OFFSET)) - IST_OFFSET = e
        ∧ (timeDataOfIst (civilFromEpoch (e + IST_OFFSET))).utc
            = civilFromEpoch e) := by
  constructor
  · intro dt now hvalid
    have hne : strftimeFmt dt ≠ "" := by
      intro hcon
      have hdata := congrArg String.data hcon
      simp [strftimeFmt, strftimeChars, pad4] at hdata
    have hist : (process_timestamp (some (strftimeFmt dt)) now).ist = dt := by
      unfold process_timestamp
      simp [hne, pyStrptime_strftime dt hvalid]
    exact ⟨hist, by rw [hist]; rfl⟩
  · intro s e now_epoch hparse hok
    have hbind : (some s).bind pyIntParse = some e := by simp [hparse]
    have hovf : ¬ fromtimestampOverflow e := by
      unfold fromtimestampOK IST_OFFSET at hok
      unfold fromtimestampOverflow IST_OFFSET
      omega
    have hmain : get_time_data (some s) now_epoch
        = .ok (timeDataOfIst (civilFromEpoch (e + IST_OFFSET))) := by
      unfold get_time_data
      simp only [hbind]
      rw [if_neg hovf, if_pos hok]
    have h1 : (1 : ℤ) ≤ 719163 + (e + IST_OFFSET) / 86400 := by
      unfold fromtimestampOK at hok
      unfold IST_OFFSET at hok ⊢
      omega
    have hr : epochOfCivil (civilFromEpoch (e + IST_OFFSET)) = e + IST_OFFSET :=
      epochOfCivil_civilFromEpoch _ h1
    refine ⟨hmain, by rw [hr]; ring, ?_⟩
    show istToUtc (civilFromEpoch (e + IST_OFFSET)) = civilFromEpoch e
    unfold istToUtc
    rw [hr]
    have h2 : e + IST_OFFSET - IST_OFFSET = e := by ring
    rw [h2]

/-- Witness for C3 at a concrete canonical string and a concrete epoch. -/
theorem claim_C3_two_branch_asymmetry_witness :
    ((process_timestamp (some (strftimeFmt ⟨2025, 3, 15, 14, 30, 5, 0⟩))
          ⟨2024, 1, 1, 0, 0, 0, 0⟩).ist = ⟨2025, 3, 15, 14, 30, 5, 0⟩
      ∧ istStr ((process_timestamp (some (strftimeFmt ⟨2025, 3, 15, 14, 30, 5, 0⟩))
            ⟨2024, 1, 1, 0, 0, 0, 0⟩).ist)
          = strftimeFmt ⟨2025, 3, 15, 14, 30, 5, 0⟩ ++ " IST") ∧
    (get_time_data (some "1700000000") 0
        = .ok (timeDataOfIst (civilFromEpoch (1700000000 + IST_OFFSET)))
      ∧ epochOfCivil (civilFromEpoch (1700000000 + IST_OFFSET)) - IST_OFFSET
          = 1700000000
      ∧ (timeDataOfIst (civilFromEpoch (1700000000 + IST_OFFSET))).utc
          = civilFromEpoch 1700000000) :=
  ⟨claim_C3_two_branch_asymmetry.1 ⟨2025, 3, 15, 14, 30, 5, 0⟩
      ⟨2024, 1, 1, 0, 0, 0, 0⟩ (by decide),
   claim_C3_two_branch_asymmetry.2 "1700000000" 1700000000 0 (by decide)
      (by decide)⟩

/-- C1: for every valid calendar instant, the MJD computed by the code's
`datetime_to_mjd` agrees with the spec's reference Julian-date formula (floor
semantics) to within 1e-6 days — in the embedding over exact rationals the two
agree exactly, so the bound holds; and 2000-01-01 00:00:00 UTC yields
MJD = 51544.0 exactly. -/
theorem claim_C1_mjd_matches_reference :
    (∀ dt : PyDatetime, ValidDT dt →
      |datetime_to_mjd dt
          - specRefMJD dt.year dt.month dt.day dt.hour dt.minute dt.second|
        ≤ 1 / 1000000) ∧
    datetime_to_mjd ⟨2000, 1, 1, 0, 0, 0, 0⟩ = 51544 := by
  constructor
  · intro dt _
    rw [datetime_to_mjd_eq_specRefMJD]
    simp
  · norm_num [datetime_to_mjd, pyInt]

/-- Witness for C1 at the concrete instant 2000-01-01 00:00:00 UTC. -/
theorem claim_C1_mjd_matches_reference_witness :
    |datetime_to_mjd ⟨2000, 1, 1, 0, 0, 0, 0⟩ - specRefMJD 2000 1 1 0 0 0|
      ≤ 1 / 1000000 :=
  claim_C1_mjd_matches_reference.1 ⟨2000, 1, 1, 0, 0, 0, 0⟩ (by decide)

/-- C10: the MJD computation reads only the year, month, day, hour, minute and
second fields of the datetime — sub-second components are ignored — so zeroing
the microseconds does not change the result, and any two datetimes agreeing on
those six fields (two readings within the same second) get the same MJD. -/
theorem claim_C10_mjd_ignores_microseconds :
    (∀ dt : PyDatetime,
      datetime_to_mjd { dt with microsecond := 0 } = datetime_to_mjd dt) ∧
    (∀ dt₁ dt₂ : PyDatetime,
      dt₁.year = dt₂.year → dt₁.month = dt₂.month → dt₁.day = dt₂.day →
      dt₁.hour = dt₂.hour → dt₁.minute = dt₂.minute → dt₁.second = dt₂.second →
      datetime_to_mjd dt₁ = datetime_to_mjd dt₂) := by
  refine ⟨fun dt => rfl, fun dt₁ dt₂ hy hmo hd hh hmi hs => ?_⟩
  simp only [datetime_to_mjd, hy, hmo, hd, hh, hmi, hs]

/-- Witness for C10: two concrete datetimes in the same second with different
microsecond fields store the same MJD. -/
theorem claim_C10_mjd_ignores_microseconds_witness :
    datetime_to_mjd ⟨2024, 6, 1, 12, 30, 45, 123456⟩
      = datetime_to_mjd ⟨2024, 6, 1, 12, 30, 45, 999999⟩ :=
  claim_C10_mjd_ignores_microseconds.2
    ⟨2024, 6, 1, 12, 30, 45, 123456⟩ ⟨2024, 6, 1, 12, 30, 45, 999999⟩
    rfl rfl rfl rfl rfl rfl


set_option maxRecDepth 8000 in
/-- C5: counterexample. With a March partition and an April partition of the
same category both inside the requested range, the reader returns the April
rows BEFORE the March rows: `sorted()` runs over full path strings, and the
month-name directory (`April_2025` < `March_2025` alphabetically) dominates
the comparison before the fixed-width date suffix is ever reached, so file
order is not chronological.  The claim's required chronological concatenation
`[rowMarch, rowApril]` differs from the computed result. -/
theorem claim_C5_counterexample :
    read_data_by_range exRangeStore "Photodiode_data" ⟨2025, 3, 1⟩ ⟨2025, 4, 30⟩
        = [rowApril, rowMarch]
      ∧ fileMarch.fdate ≤ fileApril.fdate
      ∧ fileMarch.fdate ≠ fileApril.fdate
      ∧ [rowApril, rowMarch] ≠ [rowMarch, rowApril] := by
  refine ⟨by decide, by decide, by decide, by decide⟩

/-- C5 (amended): for every store of writer-generated partitions (valid
embedded dates, no `/` in the category name), `read_data_by_range` returns
the rows of all and only the partition files of the requested category whose
filename-embedded date lies in the inclusive range, concatenated in
LEXICOGRAPHIC full-path order (not chronological order: the month-name
directory compares before the date suffix), with row order preserved within
each file; and a range matching no files yields the empty list rather than
an error. -/
theorem claim_C5_range_read_amended (store : List PFile) (data_type : String)
    (d1 d2 : PyDate)
    (hstore : ∀ f ∈ store, ValidDate f.fdate ∧ '/' ∉ f.data_type.data) :
    read_data_by_range store data_type d1 d2
      = (sortByPath (store.filter (fun f =>
          f.data_type == data_type
            && (decide (d1 ≤ f.fdate) && decide (f.fdate ≤ d2))))).flatMap
          PFile.rows
    ∧ (store.filter (fun f =>
          f.data_type == data_type
            && (decide (d1 ≤ f.fdate) && decide (f.fdate ≤ d2))) = [] →
        read_data_by_range store data_type d1 d2 = []) := by
  have hmain : read_data_by_range store data_type d1 d2
      = (sortByPath (store.filter (fun f =>
          f.data_type == data_type
            && (decide (d1 ≤ f.fdate) && decide (f.fdate ≤ d2))))).flatMap
          PFile.rows := by
    simp only [read_data_by_range, get_csv_files]
    rw [List.filter_filter]
    congr 2
    apply List.filter_congr
    intro f hf
    obtain ⟨hv, hs⟩ := hstore f hf
    rw [extract_relPath f hv hs]
    exact Bool.and_comm _ _
  refine ⟨hmain, fun hnil => ?_⟩
  rw [hmain, hnil]
  rfl

set_option maxRecDepth 8000 in
/-- C5 (amended) witness at the two-partition store. -/
theorem claim_C5_range_read_amended_witness :
    read_data_by_range exRangeStore "Photodiode_data" ⟨2025, 3, 1⟩ ⟨2025, 4, 30⟩
      = (sortByPath (exRangeStore.filter (fun f =>
          f.data_type == "Photodiode_data"
            && (decide ((⟨2025, 3, 1⟩ : PyDate) ≤ f.fdate)
              && decide (f.fdate ≤ (⟨2025, 4, 30⟩ : PyDate)))))).flatMap
          PFile.rows
    ∧ (exRangeStore.filter (fun f =>
          f.data_type == "Photodiode_data"
            && (decide ((⟨2025, 3, 1⟩ : PyDate) ≤ f.fdate)
              && decide (f.fdate ≤ (⟨2025, 4, 30⟩ : PyDate)))) = [] →
        read_data_by_range exRangeStore "Photodiode_data" ⟨2025, 3, 1⟩
          ⟨2025, 4, 30⟩ = []) :=
  claim_C5_range_read_amended exRangeStore "Photodiode_data"
    ⟨2025, 3, 1⟩ ⟨2025, 4, 30⟩ (by decide)


set_option maxRecDepth 8000 in
/-- C9: counterexample. The live-value laser path does NOT skip trailing
rows with blank timestamps: on a laser store whose newest (and only)
partition file ends in a blank-timestamp row after a well-formed row, the
code returns `none` (the literal last row's timestamp fails to parse),
whereas the claimed skip-to-last-valid-row behaviour would return the
preceding well-formed row. -/
theorem claim_C9_counterexample :
    get_latest_laser exLaserStore = none
      ∧ claimed_latest_with_skip exLaserStore "Lasers_data" = some goodLaserRow
      ∧ exLaserFile.rows ≠ [] := by
  refine ⟨by decide, by decide, by decide⟩

/-- C9 (amended): `get_most_recent` with no matching partition returns
`none`; the live photodiode path skips any trailing block of rows rejected
by its row filter (blank, whitespace-only, or `IST`-placeholder timestamps)
and reports the last surviving row with its parsed timestamp; the live
LASER path does not skip — an unparseable timestamp on the literal last row
of the lexicographically-last file makes the whole result `none`; and bulk
export (`get_most_recent`) returns the literal last row of the
lexicographically-last file, with no skipping. -/
theorem claim_C9_latest_amended :
    (∀ (store : List PFile) (data_type : String),
      store.filter (fun f => f.data_type == data_type) = [] →
      get_most_recent store data_type = none)
    ∧ (∀ (store : List PFile) (f : PFile) (rs bad : List Row) (r : Row)
        (ts : PyDatetime),
      (sortByPath (store.filter
          (fun g => g.data_type == "Photodiode_data"))).getLast? = some f →
      f.rows = rs ++ bad →
      (∀ b ∈ bad, phRowKeep b = false) →
      (rs.filter phRowKeep).getLast? = some r →
      pyStrptime ⟨stripChars (replaceIST r.timestamp.data)⟩ = some ts →
      rowFloatsOK r ["P1", "P2", "P3", "P4", "P5", "MJD"] = true →
      get_latest_photodiode store = some (r, ts))
    ∧ (∀ (store : List PFile) (f : PFile) (r : Row),
      (sortByPath (store.filter
          (fun g => g.data_type == "Lasers_data"))).getLast? = some f →
      f.rows.getLast? = some r →
      pyStrptime ⟨stripChars (replaceIST r.timestamp.data)⟩ = none →
      get_latest_laser store = none)
    ∧ (∀ (store : List PFile) (data_type : String) (f : PFile),
      (get_csv_files store data_type none).getLast? = some f →
      get_most_recent store data_type = f.rows.getLast?) := by
  refine ⟨?_, ?_, ?_, ?_⟩
  · intro store data_type h
    have hfiles : get_csv_files store data_type none = [] := by
      show sortByPath (store.filter (fun f => f.data_type == data_type)) = []
      rw [h]
      rfl
    simp only [get_most_recent, hfiles]
    rfl
  · intro store f rs bad r ts hf hrows hbad hlastrow hts hfloats
    have hbadnil : bad.filter phRowKeep = [] :=
      List.filter_eq_nil_iff.mpr (fun b hb => by simp [hbad b hb])
    simp only [get_latest_photodiode, hf, hrows, List.filter_append, hbadnil,
      List.append_nil, hlastrow, hts, hfloats, if_true]
  · intro store f r hf hr hnone
    simp only [get_latest_laser, hf, hr, hnone]
  · intro store data_type f h
    simp only [get_most_recent, h]

set_option maxRecDepth 8000 in
/-- C9 (amended) witness: the empty store, a photodiode store with a
trailing blank row (skipped), the laser store with a trailing blank row
(`none`), and bulk export of the two-partition store (the literal last row
of the lexicographically-last path, `March_2025`). -/
theorem claim_C9_latest_amended_witness :
    get_most_recent [] "Lasers_data" = none
    ∧ get_latest_photodiode exPhStore
        = some (goodPhRow, ⟨2025, 4, 10, 11, 0, 0, 0⟩)
    ∧ get_latest_laser exLaserStore = none
    ∧ get_most_recent exRangeStore "Photodiode_data" = fileMarch.rows.getLast? :=
  ⟨claim_C9_latest_amended.1 [] "Lasers_data" rfl,
    claim_C9_latest_amended.2.1 exPhStore exPhFile [goodPhRow] [blankPhRow]
      goodPhRow ⟨2025, 4, 10, 11, 0, 0, 0⟩ (by decide) rfl (by decide)
      (by decide) (by decide) (by decide),
    claim_C9_latest_amended.2.2.1 exLaserStore exLaserFile blankLaserRow
      (by decide) rfl (by decide),
    claim_C9_latest_amended.2.2.2 exRangeStore "Photodiode_data" fileMarch
      (by decide)⟩

end DataDashboard
